import Mathlib

/-!
# Core2 lifecycle and firmware-update protocol (`targets/f7/ble_glue/ble_system.c`)

A shallow embedding of the host side of the co-processor glue:

* the singleton `BleGlue` object behind the nullable global pointer `ble_glue`;
* the SHCI commands the host issues, recorded in a trace, with the co-processor's
  answers supplied by an environment (`Copro`);
* the system-event handler, the readiness wait, the radio-stack start, the
  mode switch, the firmware-update commands and the hardfault record read;
* the event worker and its two notification entry points (`ble_event_thread.c`);
* shutdown with the clearing of the shared buffers, the command gate driven by the
  status callback, and the radio-stack start with its compatibility check
  (`targets/f7/furi_hal/furi_hal_ble.c`).

Machine integers are natural numbers (bytes and words as received); the only
signed quantity, the `int32_t` timeout of the readiness wait, is an `Int` whose
decrement wraps from the least 32-bit value round to the greatest (`int32_dec`).
Logging calls have no effect on the state and are left out.
-/

namespace BleSystem

/-! ## Data model (`ble_system.h`) -/

/-- Operating mode of the co-processor (`BleGlueC2Mode`). -/
inductive BleGlueC2Mode where
  | Unknown
  | FUS
  | Stack
  deriving DecidableEq

/-- Numeric value of a `BleGlueC2Mode` enumerator. -/
def BleGlueC2Mode.toNat : BleGlueC2Mode → Nat
  | .Unknown => 0
  | .FUS => 1
  | .Stack => 2

/-- Lifecycle status (`BleGlueStatus`), in declaration order. -/
inductive BleGlueStatus where
  | Startup
  | Broken
  | C2Started
  | RadioStackRunning
  | RadioStackMissing
  deriving DecidableEq

/-- Numeric value of a `BleGlueStatus` enumerator. -/
def BleGlueStatus.toNat : BleGlueStatus → Nat
  | .Startup => 0
  | .Broken => 1
  | .C2Started => 2
  | .RadioStackRunning => 3
  | .RadioStackMissing => 4

/-- Outcome of a host-issued control command (`BleGlueCommandResult`). -/
inductive BleGlueCommandResult where
  | Unknown
  | OK
  | Error
  | RestartPending
  | OperationOngoing
  deriving DecidableEq

/-- Version and memory information of the co-processor (`BleGlueC2Info`). -/
structure BleGlueC2Info where
  mode : BleGlueC2Mode
  VersionMajor : Nat
  VersionMinor : Nat
  VersionSub : Nat
  VersionBranch : Nat
  VersionReleaseType : Nat
  MemorySizeSram2B : Nat
  MemorySizeSram2A : Nat
  MemorySizeSram1 : Nat
  MemorySizeFlash : Nat
  StackType : Nat
  StackTypeString : String
  FusVersionMajor : Nat
  FusVersionMinor : Nat
  FusVersionSub : Nat
  FusMemorySizeSram2B : Nat
  FusMemorySizeSram2A : Nat
  FusMemorySizeFlash : Nat
  deriving DecidableEq

/-- Fault record the co-processor leaves in shared memory (`BleGlueHardfaultInfo`). -/
structure BleGlueHardfaultInfo where
  magic : Nat
  source_pc : Nat
  source_lr : Nat
  source_sp : Nat
  deriving DecidableEq

/-- The singleton state object (`BleGlue` in `ble_system.c`).  The three kernel
objects are kept as handles; `callback` is `none` for a NULL function pointer. -/
structure BleGlue where
  shci_mtx : Nat
  shci_sem : Nat
  hardfault_check_timer : Nat
  status : BleGlueStatus
  callback : Option Nat
  c2_info : BleGlueC2Info
  context : Nat
  deriving DecidableEq

/-! ## Vendor interface

The SHCI headers of the vendor's wireless package are not part of the sources;
the constants the code compares against are taken as parameters. -/

/-- Constants of the vendor's SHCI headers that `ble_system.c` refers to. -/
structure ShciConst where
  SHCI_Success : Nat
  SHCI_FUS_CMD_NOT_SUPPORTED : Nat
  FUS_STATE_VALUE_ERROR : Nat
  FUS_STATE_VALUE_FW_UPGRD_ONGOING : Nat
  FUS_STATE_VALUE_SERVICE_ONGOING_END : Nat
  SHCI_SUB_EVT_CODE_READY : Nat
  SHCI_SUB_EVT_ERROR_NOTIF : Nat
  SHCI_SUB_EVT_BLE_NVM_RAM_UPDATE : Nat
  WIRELESS_FW_RUNNING : Nat
  FUS_FW_RUNNING : Nat
  INFO_STACK_TYPE_BLE_FULL : Nat
  INFO_STACK_TYPE_BLE_HCI : Nat
  INFO_STACK_TYPE_BLE_LIGHT : Nat
  INFO_STACK_TYPE_BLE_BEACON : Nat
  INFO_STACK_TYPE_BLE_BASIC : Nat
  INFO_STACK_TYPE_BLE_FULL_EXT_ADV : Nat
  INFO_STACK_TYPE_BLE_HCI_EXT_ADV : Nat

/-- The constant values published in the vendor's `shci.h`, used for concrete runs. -/
def stm32wb : ShciConst where
  SHCI_Success := 0x00
  SHCI_FUS_CMD_NOT_SUPPORTED := 0xFF
  FUS_STATE_VALUE_ERROR := 0xFF
  FUS_STATE_VALUE_FW_UPGRD_ONGOING := 0x10
  FUS_STATE_VALUE_SERVICE_ONGOING_END := 0x3F
  SHCI_SUB_EVT_CODE_READY := 0x9200
  SHCI_SUB_EVT_ERROR_NOTIF := 0x9201
  SHCI_SUB_EVT_BLE_NVM_RAM_UPDATE := 0x9202
  WIRELESS_FW_RUNNING := 0x00
  FUS_FW_RUNNING := 0x01
  INFO_STACK_TYPE_BLE_FULL := 0x01
  INFO_STACK_TYPE_BLE_HCI := 0x02
  INFO_STACK_TYPE_BLE_LIGHT := 0x03
  INFO_STACK_TYPE_BLE_BEACON := 0x04
  INFO_STACK_TYPE_BLE_BASIC := 0x05
  INFO_STACK_TYPE_BLE_FULL_EXT_ADV := 0x06
  INFO_STACK_TYPE_BLE_HCI_EXT_ADV := 0x07

/-- The fields of the vendor's `WirelessFwInfo_t` that the host copies. -/
structure WirelessFwInfo_t where
  VersionMajor : Nat
  VersionMinor : Nat
  VersionSub : Nat
  VersionBranch : Nat
  VersionReleaseType : Nat
  MemorySizeSram2B : Nat
  MemorySizeSram2A : Nat
  MemorySizeSram1 : Nat
  MemorySizeFlash : Nat
  StackType : Nat
  FusVersionMajor : Nat
  FusVersionMinor : Nat
  FusVersionSub : Nat
  FusMemorySizeSram2B : Nat
  FusMemorySizeSram2A : Nat
  FusMemorySizeFlash : Nat
  deriving DecidableEq

/-- A system-channel event as the handler reads it: the sub-event code and the
payload fields it decodes (`SHCI_C2_Ready_Evt_t`, `SHCI_C2_BleNvmRamUpdate_Evt_t`). -/
structure TL_AsynchEvt_t where
  subevtcode : Nat
  sysevt_ready_rsp : Nat
  StartAddress : Nat
  Size : Nat
  deriving DecidableEq

/-- The SHCI commands issued by `ble_system.c`. -/
inductive ShciCmd where
  | FUS_StartWs
  | FUS_GetState
  | FUS_FwDelete
  | FUS_FwUpgrade (src_addr dst_addr : Nat)
  | Reinit
  deriving DecidableEq

/-- What the co-processor sends back for one command: the returned byte and,
for the state query, the error code written through the out-pointer. -/
structure ShciAnswer where
  value : Nat
  error_code : Nat
  deriving DecidableEq

/-- The environment: the co-processor's answer to the n-th command issued since
power-up, the firmware information table it publishes, and the system events the
event worker dispatches during each scheduler tick. -/
structure Copro where
  answer : Nat → ShciAnswer
  wireless_info : WirelessFwInfo_t
  events : Nat → List TL_AsynchEvt_t

/-- One invocation of the registered key-storage callback. -/
structure KeyStorageChange where
  callback : Nat
  change_addr_start : Nat
  size : Nat
  context : Nat
  deriving DecidableEq

/-- Host state: the global pointer `ble_glue`, the commands issued so far, the
number of one-tick delays performed, the callback invocations made, and how often
the radio-stack bring-up and tear-down routines of `ble_stack.c` were entered. -/
structure World where
  ble_glue : Option BleGlue
  issued : List ShciCmd
  ticks : Nat
  callback_calls : List KeyStorageChange
  stack_init_calls : Nat
  stack_deinit_calls : Nat
  deriving DecidableEq

/-- How a call ends: it returns a value, it stops in a failed `furi_check`
(or `furi_crash`), or it dereferences `ble_glue` while that pointer is NULL. -/
inductive Outcome (α : Type) where
  | returned (value : α) (w : World)
  | fatal (w : World)
  | undefined
  deriving DecidableEq

/-- Send one command: the answer is the environment's answer for this position of
the trace, and the command is appended to the trace. -/
def shci_send (c2 : Copro) (cmd : ShciCmd) (w : World) : ShciAnswer × World :=
  (c2.answer w.issued.length, { w with issued := w.issued ++ [cmd] })

/-- Wrapper of `SHCI_C2_FUS_StartWs()`: status byte and new state. -/
def SHCI_C2_FUS_StartWs (c2 : Copro) (w : World) : Nat × World :=
  ((shci_send c2 .FUS_StartWs w).1.value, (shci_send c2 .FUS_StartWs w).2)

/-- Wrapper of `SHCI_C2_FUS_GetState(&error_code)`: state byte, error code, new state. -/
def SHCI_C2_FUS_GetState (c2 : Copro) (w : World) : Nat × Nat × World :=
  ((shci_send c2 .FUS_GetState w).1.value, (shci_send c2 .FUS_GetState w).1.error_code,
    (shci_send c2 .FUS_GetState w).2)

/-- Wrapper of `SHCI_C2_FUS_FwDelete()`. -/
def SHCI_C2_FUS_FwDelete (c2 : Copro) (w : World) : Nat × World :=
  ((shci_send c2 .FUS_FwDelete w).1.value, (shci_send c2 .FUS_FwDelete w).2)

/-- Wrapper of `SHCI_C2_FUS_FwUpgrade(src, dst)`. -/
def SHCI_C2_FUS_FwUpgrade (c2 : Copro) (src_addr dst_addr : Nat) (w : World) : Nat × World :=
  ((shci_send c2 (.FUS_FwUpgrade src_addr dst_addr) w).1.value,
    (shci_send c2 (.FUS_FwUpgrade src_addr dst_addr) w).2)

/-! ## Mode switch and firmware-update commands -/

/-- Embedding of `ble_system_force_c2_mode`. -/
def ble_system_force_c2_mode (K : ShciConst) (c2 : Copro) (desired_mode : BleGlueC2Mode)
    (w : World) : Outcome BleGlueCommandResult :=
  if ¬ (desired_mode.toNat > BleGlueC2Mode.Unknown.toNat) then .fatal w
  else
    match w.ble_glue with
    | none => .undefined
    | some g =>
      if desired_mode = g.c2_info.mode then .returned .OK w
      else if g.c2_info.mode = .FUS ∧ desired_mode = .Stack then
        if g.c2_info.VersionMajor = 0 ∧ g.c2_info.VersionMinor = 0 then .returned .Error w
        else if (SHCI_C2_FUS_StartWs c2 w).1 ≠ 0 then
          .returned .Error (SHCI_C2_FUS_StartWs c2 w).2
        else .returned .RestartPending (SHCI_C2_FUS_StartWs c2 w).2
      else if g.c2_info.mode = .Stack ∧ desired_mode = .FUS then
        if (SHCI_C2_FUS_GetState c2 w).1 = K.SHCI_FUS_CMD_NOT_SUPPORTED then
          .returned .RestartPending
            (SHCI_C2_FUS_GetState c2 (SHCI_C2_FUS_GetState c2 w).2.2).2.2
        else .returned .OK (SHCI_C2_FUS_GetState c2 w).2.2
      else .returned .Error w

/-- Embedding of `ble_system_fus_get_status`. -/
def ble_system_fus_get_status (K : ShciConst) (c2 : Copro) (w : World) :
    Outcome BleGlueCommandResult :=
  match w.ble_glue with
  | none => .undefined
  | some g =>
    if ¬ (g.c2_info.mode = .FUS) then .fatal w
    else
      if (SHCI_C2_FUS_GetState c2 w).2.1 ≠ 0 ∨
          (SHCI_C2_FUS_GetState c2 w).1 = K.FUS_STATE_VALUE_ERROR then
        .returned .Error (SHCI_C2_FUS_GetState c2 w).2.2
      else if (SHCI_C2_FUS_GetState c2 w).1 ≥ K.FUS_STATE_VALUE_FW_UPGRD_ONGOING ∧
          (SHCI_C2_FUS_GetState c2 w).1 ≤ K.FUS_STATE_VALUE_SERVICE_ONGOING_END then
        .returned .OperationOngoing (SHCI_C2_FUS_GetState c2 w).2.2
      else .returned .OK (SHCI_C2_FUS_GetState c2 w).2.2

/-- Embedding of `ble_system_fus_stack_delete`. -/
def ble_system_fus_stack_delete (K : ShciConst) (c2 : Copro) (w : World) :
    Outcome BleGlueCommandResult :=
  if (SHCI_C2_FUS_FwDelete c2 w).1 = K.SHCI_Success then
    .returned .OperationOngoing (SHCI_C2_FUS_FwDelete c2 w).2
  else
    match ble_system_fus_get_status K c2 (SHCI_C2_FUS_FwDelete c2 w).2 with
    | .returned _ w2 => .returned .Error w2
    | .fatal w2 => .fatal w2
    | .undefined => .undefined

/-- Embedding of `ble_system_fus_stack_install`. -/
def ble_system_fus_stack_install (K : ShciConst) (c2 : Copro) (src_addr dst_addr : Nat)
    (w : World) : Outcome BleGlueCommandResult :=
  if (SHCI_C2_FUS_FwUpgrade c2 src_addr dst_addr w).1 = K.SHCI_Success then
    .returned .OperationOngoing (SHCI_C2_FUS_FwUpgrade c2 src_addr dst_addr w).2
  else
    match ble_system_fus_get_status K c2 (SHCI_C2_FUS_FwUpgrade c2 src_addr dst_addr w).2 with
    | .returned _ w2 => .returned .Error w2
    | .fatal w2 => .fatal w2
    | .undefined => .undefined

/-! ## System-event handler and event worker -/

/-- Embedding of `ble_system_sys_user_event_callback`.  The callback's `size`
parameter is a `uint16_t`, so the 32-bit `Size` field is truncated. -/
def ble_system_sys_user_event_callback (K : ShciConst) (ev : TL_AsynchEvt_t) (w : World) :
    Outcome Unit :=
  if ev.subevtcode = K.SHCI_SUB_EVT_CODE_READY then
    match w.ble_glue with
    | none => .undefined
    | some g =>
      .returned ()
        { w with
          ble_glue := some
            { g with
              c2_info :=
                { g.c2_info with
                  mode :=
                    if ev.sysevt_ready_rsp = K.WIRELESS_FW_RUNNING then .Stack
                    else if ev.sysevt_ready_rsp = K.FUS_FW_RUNNING then .FUS
                    else g.c2_info.mode }
              status := .C2Started } }
  else if ev.subevtcode = K.SHCI_SUB_EVT_ERROR_NOTIF then .returned () w
  else if ev.subevtcode = K.SHCI_SUB_EVT_BLE_NVM_RAM_UPDATE then
    match w.ble_glue with
    | none => .undefined
    | some g =>
      match g.callback with
      | none => .returned () w
      | some cb =>
        .returned ()
          { w with
            callback_calls :=
              w.callback_calls ++ [⟨cb, ev.StartAddress, ev.Size % 2 ^ 16, g.context⟩] }
  else .returned () w

/-- The vendor's `shci_user_evt_proc`, as far as the host sees it: every pending
system event is handed to the registered handler, in order. -/
def shci_user_evt_proc (K : ShciConst) : List TL_AsynchEvt_t → World → Outcome Unit
  | [], w => .returned () w
  | ev :: rest, w =>
    match ble_system_sys_user_event_callback K ev w with
    | .returned _ w1 => shci_user_evt_proc K rest w1
    | .fatal w1 => .fatal w1
    | .undefined => .undefined

/-- The call `furi_delay_tick(1)`: the caller sleeps for one tick, during which the
event worker dispatches the events the environment delivers in that tick. -/
def furi_delay_tick (K : ShciConst) (c2 : Copro) (w : World) : Outcome Unit :=
  match shci_user_evt_proc K (c2.events w.ticks) w with
  | .returned _ w1 => .returned () { w1 with ticks := w1.ticks + 1 }
  | .fatal w1 => .fatal w1
  | .undefined => .undefined

/-! ## Firmware information -/

/-- Embedding of `ble_system_get_reltype_str`; the default case prints the byte
in upper-case hexadecimal into a three-byte buffer. -/
def ble_system_get_reltype_str (K : ShciConst) (reltype : Nat) : String :=
  if reltype = K.INFO_STACK_TYPE_BLE_FULL then "F"
  else if reltype = K.INFO_STACK_TYPE_BLE_HCI then "H"
  else if reltype = K.INFO_STACK_TYPE_BLE_LIGHT then "L"
  else if reltype = K.INFO_STACK_TYPE_BLE_BEACON then "Be"
  else if reltype = K.INFO_STACK_TYPE_BLE_BASIC then "Ba"
  else if reltype = K.INFO_STACK_TYPE_BLE_FULL_EXT_ADV then "F+"
  else if reltype = K.INFO_STACK_TYPE_BLE_HCI_EXT_ADV then "H+"
  else (String.mk ((Nat.toDigits 16 reltype).map Char.toUpper)).take 2

/-- The length limit `BLE_MAX_VERSION_STRING_LEN`. -/
def BLE_MAX_VERSION_STRING_LEN : Nat := 20

/-- Embedding of `ble_system_update_c2_fw_info`: the published firmware
information is copied into `c2_info`; `mode` is not touched. -/
def ble_system_update_c2_fw_info (K : ShciConst) (c2 : Copro) (w : World) : Outcome Unit :=
  match w.ble_glue with
  | none => .undefined
  | some g =>
    .returned ()
      { w with
        ble_glue := some
          { g with
            c2_info :=
              { mode := g.c2_info.mode
                VersionMajor := c2.wireless_info.VersionMajor
                VersionMinor := c2.wireless_info.VersionMinor
                VersionSub := c2.wireless_info.VersionSub
                VersionBranch := c2.wireless_info.VersionBranch
                VersionReleaseType := c2.wireless_info.VersionReleaseType
                MemorySizeSram2B := c2.wireless_info.MemorySizeSram2B
                MemorySizeSram2A := c2.wireless_info.MemorySizeSram2A
                MemorySizeSram1 := c2.wireless_info.MemorySizeSram1
                MemorySizeFlash := c2.wireless_info.MemorySizeFlash
                StackType := c2.wireless_info.StackType
                StackTypeString :=
                  (toString c2.wireless_info.VersionMajor ++ "." ++
                    toString c2.wireless_info.VersionMinor ++ "." ++
                    toString c2.wireless_info.VersionSub ++ ":" ++
                    ble_system_get_reltype_str K c2.wireless_info.StackType).take
                    (BLE_MAX_VERSION_STRING_LEN - 1)
                FusVersionMajor := c2.wireless_info.FusVersionMajor
                FusVersionMinor := c2.wireless_info.FusVersionMinor
                FusVersionSub := c2.wireless_info.FusVersionSub
                FusMemorySizeSram2B := c2.wireless_info.FusMemorySizeSram2B
                FusMemorySizeSram2A := c2.wireless_info.FusMemorySizeSram2A
                FusMemorySizeFlash := c2.wireless_info.FusMemorySizeFlash } } }

/-! ## Readiness wait and radio-stack start -/

/-- The statement `timeout--` on the `int32_t` timeout: one less, and from the
least value -2147483648 round to the greatest value 2147483647. -/
def int32_dec (timeout : Int) : Int :=
  if timeout = -2147483648 then 2147483647 else timeout - 1

/-- The `do ... while` loop of `ble_system_wait_for_c2_start`: one pass reads the
status, and unless it is `C2Started` decrements the timeout and sleeps one tick;
the loop repeats while nothing was seen and the timeout is still positive.
The result is the final value of `started`. -/
def wait_for_c2_start_loop (K : ShciConst) (c2 : Copro) (timeout : Int) (w : World) :
    Outcome Bool :=
  match w.ble_glue with
  | none => .undefined
  | some g =>
    if g.status = .C2Started then .returned true w
    else
      match furi_delay_tick K c2 w with
      | .returned _ w1 =>
        if 0 < int32_dec timeout then wait_for_c2_start_loop K c2 (int32_dec timeout) w1
        else .returned false w1
      | .fatal w1 => .fatal w1
      | .undefined => .undefined
termination_by (int32_dec timeout).toNat
decreasing_by
  rename_i hpos
  generalize int32_dec timeout = t at hpos
  unfold int32_dec
  split_ifs <;> omega

/-- Embedding of `ble_system_wait_for_c2_start`. -/
def ble_system_wait_for_c2_start (K : ShciConst) (c2 : Copro) (timeout : Int) (w : World) :
    Outcome Bool :=
  match wait_for_c2_start_loop K c2 timeout w with
  | .returned true w1 =>
    match ble_system_update_c2_fw_info K c2 w1 with
    | .returned _ w2 => .returned true w2
    | .fatal w2 => .fatal w2
    | .undefined => .undefined
  | .returned false w1 =>
    match w1.ble_glue with
    | none => .undefined
    | some g => .returned false { w1 with ble_glue := some { g with status := .Broken } }
  | .fatal w1 => .fatal w1
  | .undefined => .undefined

/-- Embedding of `ble_system_start`; `stack_init_ok` is the result of
`ble_stack_init()`.  The debug assertion on `ble_glue` is taken as enabled. -/
def ble_system_start (stack_init_ok : Bool) (w : World) : Outcome Bool :=
  match w.ble_glue with
  | none => .fatal w
  | some g =>
    if g.status ≠ .C2Started then .returned false w
    else if stack_init_ok then
      .returned true
        { w with
          ble_glue := some { g with status := .RadioStackRunning }
          stack_init_calls := w.stack_init_calls + 1 }
    else
      .returned false
        { w with
          ble_glue := some { g with status := .RadioStackMissing }
          stack_init_calls := w.stack_init_calls + 1
          stack_deinit_calls := w.stack_deinit_calls + 1 }

/-! ## The operations that write the lifecycle status -/

/-- The three places of `ble_system.c` that assign `ble_glue->status` after
initialisation: the system-event handler, the readiness wait and the radio-stack
start. -/
inductive LifecycleOp where
  | sys_user_event (ev : TL_AsynchEvt_t)
  | wait_for_c2_start (timeout : Int)
  | start (stack_init_ok : Bool)

/-- Run one of the status-writing operations; the result is the returned `bool`,
or `none` for the handler, which returns nothing. -/
def LifecycleOp.run (K : ShciConst) (c2 : Copro) : LifecycleOp → World → Outcome (Option Bool)
  | .sys_user_event ev, w =>
    match ble_system_sys_user_event_callback K ev w with
    | .returned _ w1 => .returned none w1
    | .fatal w1 => .fatal w1
    | .undefined => .undefined
  | .wait_for_c2_start timeout, w =>
    match ble_system_wait_for_c2_start K c2 timeout w with
    | .returned b w1 => .returned (some b) w1
    | .fatal w1 => .fatal w1
    | .undefined => .undefined
  | .start stack_init_ok, w =>
    match ble_system_start stack_init_ok w with
    | .returned b w1 => .returned (some b) w1
    | .fatal w1 => .fatal w1
    | .undefined => .undefined

/-! ## Hardfault record -/

/-- The sentinel `ble_system_HARDFAULT_INFO_MAGIC`. -/
def ble_system_HARDFAULT_INFO_MAGIC : Nat := 0x1170FD0F

/-- Embedding of `ble_system_get_hardfault_info`: `info` is the content of the
four words at `SRAM2A_BASE`; `none` stands for the NULL result. -/
def ble_system_get_hardfault_info (info : BleGlueHardfaultInfo) : Option BleGlueHardfaultInfo :=
  if info.magic ≠ ble_system_HARDFAULT_INFO_MAGIC then none else some info

/-! ## Event worker (`ble_event_thread.c`) -/

/-- Thread flag `BLE_EVENT_THREAD_FLAG_SHCI_EVENT`. -/
def BLE_EVENT_THREAD_FLAG_SHCI_EVENT : Nat := 1 <<< 0

/-- Thread flag `BLE_EVENT_THREAD_FLAG_HCI_EVENT`. -/
def BLE_EVENT_THREAD_FLAG_HCI_EVENT : Nat := 1 <<< 1

/-- Thread flag `BLE_EVENT_THREAD_FLAG_KILL_THREAD`. -/
def BLE_EVENT_THREAD_FLAG_KILL_THREAD : Nat := 1 <<< 2

/-- The wait set `BLE_EVENT_THREAD_FLAG_ALL`. -/
def BLE_EVENT_THREAD_FLAG_ALL : Nat :=
  BLE_EVENT_THREAD_FLAG_SHCI_EVENT ||| BLE_EVENT_THREAD_FLAG_HCI_EVENT |||
    BLE_EVENT_THREAD_FLAG_KILL_THREAD

/-- An invocation of one of the two transport-layer event processors. -/
inductive WorkerCall where
  | shci_user_evt_proc
  | hci_user_evt_proc
  deriving DecidableEq

/-- How far the thread function got: the state its processors left, whether it
left its loop and returned, and how many wake-ups it consumed. -/
structure WorkerRun (σ : Type) where
  state : σ
  exited : Bool
  wakes : Nat

/-- Embedding of the thread function `ble_event_thread`.  The list holds the values
returned by the successive calls of `furi_thread_flags_wait`; when it is used up the
thread is blocked in the next wait.  The two processors are the vendor's
`shci_user_evt_proc` and `hci_user_evt_proc`, acting on a state `σ`. -/
def ble_event_thread {σ : Type} (shci_proc hci_proc : σ → σ) : List Nat → σ → WorkerRun σ
  | [], st => ⟨st, false, 0⟩
  | flags :: later, st =>
    let st1 := if flags &&& BLE_EVENT_THREAD_FLAG_SHCI_EVENT ≠ 0 then shci_proc st else st
    let st2 := if flags &&& BLE_EVENT_THREAD_FLAG_HCI_EVENT ≠ 0 then hci_proc st1 else st1
    if flags &&& BLE_EVENT_THREAD_FLAG_KILL_THREAD ≠ 0 then ⟨st2, true, 1⟩
    else
      let r := ble_event_thread shci_proc hci_proc later st2
      ⟨r.state, r.exited, r.wakes + 1⟩

/-- What the claim about the worker says one wake-up does: the system-channel
processor if bit 0 of the mask is set, then the link-layer processor if bit 1 is. -/
def serviced (mask : Nat) : List WorkerCall :=
  (if mask.testBit 0 then [WorkerCall.shci_user_evt_proc] else []) ++
    (if mask.testBit 1 then [WorkerCall.hci_user_evt_proc] else [])

/-- The wake-ups the worker takes according to the claim: all masks up to and
including the first one with the kill bit (bit 2), or all of them if there is none. -/
def wakes_until_kill : List Nat → List Nat
  | [] => []
  | mask :: later => if mask.testBit 2 then [mask] else mask :: wakes_until_kill later

/-- The worker thread as the notifying side sees it (`event_thread` is a pointer to
it): its thread id, null until it runs, and its pending thread flags. -/
structure EventThread where
  thread_id : Nat
  flags : Nat
  deriving DecidableEq

/-! ## The whole host side -/

/-- The four buffers placed in the shared section `MB_MEM2`, as bytes. -/
structure SharedMemory where
  ble_system_event_pool : List Nat
  ble_system_system_cmd_buff : List Nat
  ble_system_system_spare_event_buff : List Nat
  ble_system_ble_spare_event_buff : List Nat
  deriving DecidableEq

/-- The radio stack flavour recorded by `furi_hal_ble.c` (`FuriHalBtStack`). -/
inductive FuriHalBtStack where
  | Unknown
  | Light
  | Full
  deriving DecidableEq

/-- The static object `furi_hal_ble` (`FuriHalBt`); `core2_mtx` is `none` while NULL. -/
structure FuriHalBt where
  core2_mtx : Option Nat
  stack : FuriHalBtStack
  deriving DecidableEq

/-- Host state across the three source files: the state of `ble_system.c`, the
shared buffers, the static `event_thread` of `ble_event_thread.c` with the log of
processor invocations made by the worker, the static `furi_hal_ble`, and whether
its mutex `core2_mtx` is currently held. -/
structure System where
  world : World
  shm : SharedMemory
  event_thread : Option EventThread
  worker_calls : List WorkerCall
  furi_hal_ble : FuriHalBt
  core2_locked : Bool
  deriving DecidableEq

/-- How a call on the whole host state ends: it returns, it stops in a failed check
or crash, it dereferences a NULL `ble_glue`, or it waits for ever on a held lock. -/
inductive SysOutcome (α : Type) where
  | returned (value : α) (s : System)
  | fatal
  | undefined
  | blocked
  deriving DecidableEq

/-- Embedding of `shci_notify_asynch_evt`; the debug assertion on the thread id is
taken as enabled. -/
def shci_notify_asynch_evt (s : System) : SysOutcome Unit :=
  match s.event_thread with
  | none => .returned () s
  | some th =>
    if th.thread_id = 0 then .fatal
    else
      .returned ()
        { s with
          event_thread := some { th with flags := th.flags ||| BLE_EVENT_THREAD_FLAG_SHCI_EVENT } }

/-- Embedding of `hci_notify_asynch_evt`. -/
def hci_notify_asynch_evt (s : System) : SysOutcome Unit :=
  match s.event_thread with
  | none => .fatal
  | some th =>
    if th.thread_id = 0 then .fatal
    else
      .returned ()
        { s with
          event_thread := some { th with flags := th.flags ||| BLE_EVENT_THREAD_FLAG_HCI_EVENT } }

/-- Embedding of `ble_event_thread_start`; `thread_id` is the id the started
thread gets. -/
def ble_event_thread_start (thread_id : Nat) (s : System) : SysOutcome Unit :=
  if s.event_thread ≠ none then .fatal
  else .returned () { s with event_thread := some ⟨thread_id, 0⟩ }

/-- Embedding of `ble_event_thread_stop`.  Joining the thread lets it take its last
wake-up, with the pending flags and the kill flag just set; the processors it
invokes there are appended to the log. -/
def ble_event_thread_stop (s : System) : SysOutcome Unit :=
  match s.event_thread with
  | none => .returned () s
  | some th =>
    if th.thread_id = 0 then .fatal
    else
      .returned ()
        { s with
          event_thread := none
          worker_calls :=
            (ble_event_thread (fun log => log ++ [WorkerCall.shci_user_evt_proc])
              (fun log => log ++ [WorkerCall.hci_user_evt_proc])
              [th.flags ||| BLE_EVENT_THREAD_FLAG_KILL_THREAD] s.worker_calls).state }

/-- Embedding of `ble_system_clear_shared_memory`: each `memset` overwrites the
whole buffer with zero bytes. -/
def ble_system_clear_shared_memory (m : SharedMemory) : SharedMemory where
  ble_system_event_pool := List.replicate m.ble_system_event_pool.length 0
  ble_system_system_cmd_buff := List.replicate m.ble_system_system_cmd_buff.length 0
  ble_system_system_spare_event_buff :=
    List.replicate m.ble_system_system_spare_event_buff.length 0
  ble_system_ble_spare_event_buff := List.replicate m.ble_system_ble_spare_event_buff.length 0

/-- Embedding of `ble_system_stop`. -/
def ble_system_stop (s : System) : SysOutcome Unit :=
  match s.world.ble_glue with
  | none => .returned () s
  | some _ =>
    match ble_event_thread_stop s with
    | .returned _ s1 =>
      .returned ()
        { s1 with
          shm := ble_system_clear_shared_memory s1.shm
          world := { s1.world with ble_glue := none } }
    | .fatal => .fatal
    | .undefined => .undefined
    | .blocked => .blocked

/-- Embedding of `ble_system_is_alive`. -/
def ble_system_is_alive (w : World) : Bool :=
  match w.ble_glue with
  | none => false
  | some g => decide (g.status.toNat ≥ BleGlueStatus.C2Started.toNat)

/-- Embedding of `ble_system_is_radio_stack_ready`. -/
def ble_system_is_radio_stack_ready (w : World) : Bool :=
  match w.ble_glue with
  | none => false
  | some g => decide (g.status = .RadioStackRunning)

/-! ## Radio-stack start (`furi_hal_ble.c`) -/

/-- Constants of `furi_hal_ble.h`, which is not part of the sources: the readiness
timeout and the minimum radio-stack version. -/
structure HalConst where
  FURI_HAL_BLE_C2_START_TIMEOUT : Int
  FURI_HAL_BLE_STACK_VERSION_MAJOR : Nat
  FURI_HAL_BLE_STACK_VERSION_MINOR : Nat

/-- Sample values of the header constants: timeout 1000 ticks, minimum stack 1.12. -/
def sample_hal_const : HalConst where
  FURI_HAL_BLE_C2_START_TIMEOUT := 1000
  FURI_HAL_BLE_STACK_VERSION_MAJOR := 1
  FURI_HAL_BLE_STACK_VERSION_MINOR := 12

/-- Embedding of `furi_hal_ble_radio_stack_is_supported`: the result and the new
value of `furi_hal_ble.stack`, given its old value. -/
def furi_hal_ble_radio_stack_is_supported (K : ShciConst) (H : HalConst) (info : BleGlueC2Info)
    (stack : FuriHalBtStack) : Bool × FuriHalBtStack :=
  if info.StackType = K.INFO_STACK_TYPE_BLE_LIGHT then
    if info.VersionMajor ≥ H.FURI_HAL_BLE_STACK_VERSION_MAJOR ∧
        info.VersionMinor ≥ H.FURI_HAL_BLE_STACK_VERSION_MINOR then
      (true, .Light)
    else (false, stack)
  else if info.StackType = K.INFO_STACK_TYPE_BLE_FULL then
    if info.VersionMajor ≥ H.FURI_HAL_BLE_STACK_VERSION_MAJOR ∧
        info.VersionMinor ≥ H.FURI_HAL_BLE_STACK_VERSION_MINOR then
      (true, .Full)
    else (false, stack)
  else (false, .Unknown)

/-- Embedding of `furi_hal_ble_ensure_c2_mode`.  After `RestartPending` the code
sleeps for the mode-switch timeout and then crashes. -/
def furi_hal_ble_ensure_c2_mode (K : ShciConst) (c2 : Copro) (mode : BleGlueC2Mode) (w : World) :
    Outcome Bool :=
  match ble_system_force_c2_mode K c2 mode w with
  | .returned fw_start_res w1 =>
    if fw_start_res = .OK then .returned true w1
    else if fw_start_res = .RestartPending then .fatal w1
    else .returned false w1
  | .fatal w1 => .fatal w1
  | .undefined => .undefined

/-- Embedding of `furi_hal_ble_start_radio_stack`.  `hsem` is the value returned by
`LL_HSEM_1StepLock` for the CLK48 semaphore and `stack_init_ok` the result of
`ble_stack_init()`; the debug assertion on `core2_mtx` is taken as enabled. -/
def furi_hal_ble_start_radio_stack (K : ShciConst) (H : HalConst) (c2 : Copro) (hsem : Nat)
    (stack_init_ok : Bool) (s : System) : SysOutcome Bool :=
  match s.furi_hal_ble.core2_mtx with
  | none => .fatal
  | some _ =>
    if s.core2_locked then .blocked
    else if ¬ (hsem = 0) then .fatal
    else
      match ble_system_wait_for_c2_start K c2 H.FURI_HAL_BLE_C2_START_TIMEOUT s.world with
      | .fatal _ => .fatal
      | .undefined => .undefined
      | .returned false w1 => .returned false { s with world := w1, core2_locked := false }
      | .returned true w1 =>
        match furi_hal_ble_ensure_c2_mode K c2 .Stack w1 with
        | .fatal _ => .fatal
        | .undefined => .undefined
        | .returned false w2 => .returned false { s with world := w2, core2_locked := false }
        | .returned true w2 =>
          match w2.ble_glue with
          | none => .undefined
          | some g =>
            if (furi_hal_ble_radio_stack_is_supported K H g.c2_info s.furi_hal_ble.stack).1 = false
            then
              .returned false
                { s with
                  world := w2
                  furi_hal_ble :=
                    { s.furi_hal_ble with
                      stack :=
                        (furi_hal_ble_radio_stack_is_supported K H g.c2_info
                          s.furi_hal_ble.stack).2 }
                  core2_locked := false }
            else
              match ble_system_start stack_init_ok w2 with
              | .fatal _ => .fatal
              | .undefined => .undefined
              | .returned true w3 =>
                .returned true
                  { s with
                    world := w3
                    furi_hal_ble :=
                      { s.furi_hal_ble with
                        stack :=
                          (furi_hal_ble_radio_stack_is_supported K H g.c2_info
                            s.furi_hal_ble.stack).2 }
                    core2_locked := false }
              | .returned false w3 =>
                match ble_system_stop
                    { s with
                      world := { w3 with stack_deinit_calls := w3.stack_deinit_calls + 1 }
                      furi_hal_ble :=
                        { s.furi_hal_ble with
                          stack :=
                            (furi_hal_ble_radio_stack_is_supported K H g.c2_info
                              s.furi_hal_ble.stack).2 }
                      core2_locked := true } with
                | .returned _ s1 => .returned false { s1 with core2_locked := false }
                | .fatal => .fatal
                | .undefined => .undefined
                | .blocked => .blocked

/-! ## Initialisation -/

/-- Embedding of `ble_system_init`, as far as the modelled state goes: `fresh` is
the content of the newly allocated object, the three handles are those returned by
the kernel allocators, `thread_id` is the id of the started worker.  The object is
allocated and its status set before `ble_event_thread_start` checks that no worker
exists yet. -/
def ble_system_init (fresh : BleGlue) (timer mtx sem thread_id : Nat) (s : System) :
    SysOutcome Unit :=
  ble_event_thread_start thread_id
    { s with
      world :=
        { s.world with
          ble_glue := some
            { fresh with
              status := .Startup
              hardfault_check_timer := timer
              shci_mtx := mtx
              shci_sem := sem } } }

/-! ## Runs of lifecycle operations -/

/-- Run a sequence of status-writing operations one after the other. -/
def run_lifecycle (K : ShciConst) (c2 : Copro) : List LifecycleOp → World → Outcome Unit
  | [], w => .returned () w
  | op :: ops, w =>
    match op.run K c2 w with
    | .returned _ w1 => run_lifecycle K c2 ops w1
    | .fatal w1 => .fatal w1
    | .undefined => .undefined

/-- The ready notification, if the event is one, reports one of the two values of
the vendor's `SHCI_SysEvt_Ready_Rsp_t`. -/
def ready_rsp_known (K : ShciConst) (ev : TL_AsynchEvt_t) : Prop :=
  ev.subevtcode = K.SHCI_SUB_EVT_CODE_READY →
    ev.sysevt_ready_rsp = K.WIRELESS_FW_RUNNING ∨ ev.sysevt_ready_rsp = K.FUS_FW_RUNNING

/-- An event handed to the handler directly is a well-formed ready notification or
no ready notification; the other operations carry no event. -/
def op_events_known (K : ShciConst) : LifecycleOp → Prop
  | .sys_user_event ev => ready_rsp_known K ev
  | .wait_for_c2_start _ => True
  | .start _ => True

/-- The mode is known whenever the status is `C2Started`. -/
def mode_known_when_started (g : BleGlue) : Prop :=
  g.status = .C2Started → g.c2_info.mode ≠ .Unknown

/-! ## Command gate -/

/-- The status values the transport layer passes to the status callback
(`SHCI_TL_CmdStatus_t`); `other` stands for any value that is neither of the two. -/
inductive SHCI_TL_CmdStatus_t where
  | SHCI_TL_CmdBusy
  | SHCI_TL_CmdAvailable
  | other (value : Nat)
  deriving DecidableEq

/-- Modelled from the spec: the kernel mutex behind `ble_glue->shci_mtx`
(`core/mutex.h` is not part of the sources), as the two-state gate of the spec. -/
inductive Gate where
  | Idle
  | Busy
  deriving DecidableEq

/-- Modelled from the spec: `furi_mutex_acquire(mtx, FuriWaitForever)` on the gate.
An idle gate becomes busy; on a busy gate the caller waits, which is `none`. -/
def furi_mutex_acquire : Gate → Option Gate
  | .Idle => some .Busy
  | .Busy => none

/-- Modelled from the spec: `furi_mutex_release(mtx)` on the gate.  A busy gate
becomes idle; releasing an idle gate fails and changes nothing.  The flag tells
whether the release took effect. -/
def furi_mutex_release : Gate → Gate × Bool
  | .Busy => (.Idle, true)
  | .Idle => (.Idle, false)

/-- An effective operation on the gate. -/
inductive GateEvent where
  | acquired
  | released
  deriving DecidableEq

/-- The gate together with the record of the acquisitions and releases that took
effect, oldest first. -/
structure GateState where
  gate : Gate
  log : List GateEvent
  deriving DecidableEq

/-- How a status notification ends: the callback returns, the caller is left
waiting in the acquire, or `ble_glue` was NULL when dereferenced. -/
inductive GateOutcome where
  | done (st : GateState)
  | waiting
  | undefined
  deriving DecidableEq

/-- Embedding of `ble_system_sys_status_not_callback`, acting on the gate behind
`ble_glue->shci_mtx`. -/
def ble_system_sys_status_not_callback (status : SHCI_TL_CmdStatus_t) (w : World)
    (st : GateState) : GateOutcome :=
  match status with
  | .SHCI_TL_CmdBusy =>
    match w.ble_glue with
    | none => .undefined
    | some _ =>
      match furi_mutex_acquire st.gate with
      | some gate => .done { gate := gate, log := st.log ++ [.acquired] }
      | none => .waiting
  | .SHCI_TL_CmdAvailable =>
    match w.ble_glue with
    | none => .undefined
    | some _ =>
      if (furi_mutex_release st.gate).2 then
        .done { gate := (furi_mutex_release st.gate).1, log := st.log ++ [.released] }
      else .done { st with gate := (furi_mutex_release st.gate).1 }
  | .other _ => .done st

/-- Feed a stream of status notifications to the callback, stopping at the first
one that does not return.  The result is the gate state reached and the
notifications that were not handled. -/
def notify_stream (w : World) :
    List SHCI_TL_CmdStatus_t → GateState → GateState × List SHCI_TL_CmdStatus_t
  | [], st => (st, [])
  | status :: later, st =>
    match ble_system_sys_status_not_callback status w st with
    | .done st1 => notify_stream w later st1
    | .waiting => (st, status :: later)
    | .undefined => (st, status :: later)

/-- The record of a gate that works as a lock: acquisitions and releases alternate,
starting with an acquisition; `held` tells whether the lock is held at the start. -/
def alternates : Bool → List GateEvent → Bool
  | _, [] => true
  | false, .acquired :: later => alternates true later
  | true, .released :: later => alternates false later
  | false, .released :: _ => false
  | true, .acquired :: _ => false

/-- Whether the lock is held after the recorded operations, given whether it was
held before them. -/
def held_after : Bool → List GateEvent → Bool
  | held, [] => held
  | _, .acquired :: later => held_after true later
  | _, .released :: later => held_after false later

/-! ## Sample states for concrete runs -/

/-- A firmware information record with the given mode and radio-stack version. -/
def sample_info (m : BleGlueC2Mode) (major minor : Nat) : BleGlueC2Info where
  mode := m
  VersionMajor := major
  VersionMinor := minor
  VersionSub := 0
  VersionBranch := 0
  VersionReleaseType := 0
  MemorySizeSram2B := 0
  MemorySizeSram2A := 0
  MemorySizeSram1 := 0
  MemorySizeFlash := 0
  StackType := 0
  StackTypeString := ""
  FusVersionMajor := 0
  FusVersionMinor := 0
  FusVersionSub := 0
  FusMemorySizeSram2B := 0
  FusMemorySizeSram2A := 0
  FusMemorySizeFlash := 0

/-- A state object with the given status, mode and radio-stack version. -/
def sample_glue (st : BleGlueStatus) (m : BleGlueC2Mode) (major minor : Nat) : BleGlue where
  shci_mtx := 1
  shci_sem := 2
  hardfault_check_timer := 3
  status := st
  callback := none
  c2_info := sample_info m major minor
  context := 0

/-- An initialised host state with an empty command trace. -/
def sample_world (st : BleGlueStatus) (m : BleGlueC2Mode) (major minor : Nat) : World where
  ble_glue := some (sample_glue st m major minor)
  issued := []
  ticks := 0
  callback_calls := []
  stack_init_calls := 0
  stack_deinit_calls := 0

/-- The firmware information table of a co-processor with radio stack 1.17. -/
def sample_wireless_info : WirelessFwInfo_t where
  VersionMajor := 1
  VersionMinor := 17
  VersionSub := 0
  VersionBranch := 0
  VersionReleaseType := 0
  MemorySizeSram2B := 0
  MemorySizeSram2A := 0
  MemorySizeSram1 := 0
  MemorySizeFlash := 0
  StackType := 3
  FusVersionMajor := 1
  FusVersionMinor := 2
  FusVersionSub := 0
  FusMemorySizeSram2B := 0
  FusMemorySizeSram2A := 0
  FusMemorySizeFlash := 0

/-- A co-processor that gives the same answer to every command and sends no event. -/
def quiet_copro (value error_code : Nat) : Copro where
  answer := fun _ => ⟨value, error_code⟩
  wireless_info := sample_wireless_info
  events := fun _ => []

/-- The ready notification of a co-processor running the wireless firmware. -/
def ready_event : TL_AsynchEvt_t where
  subevtcode := 0x9200
  sysevt_ready_rsp := 0x00
  StartAddress := 0
  Size := 0

/-- A co-processor whose only event is one ready notification, dispatched during
the tick `k`. -/
def ready_at (k : Nat) : Copro where
  answer := fun _ => ⟨0, 0⟩
  wireless_info := sample_wireless_info
  events := fun n => if n = k then [ready_event] else []

/-- Shared buffers holding some non-zero bytes. -/
def sample_shm : SharedMemory where
  ble_system_event_pool := [0x04, 0xFF, 0x0B, 0x00, 0x92]
  ble_system_system_cmd_buff := [0x10, 0x52, 0xFC]
  ble_system_system_spare_event_buff := [0x12, 0x00]
  ble_system_ble_spare_event_buff := [0xFF]

/-- A host state around the given `ble_system.c` state and worker pointer. -/
def sample_system (w : World) (et : Option EventThread) : System where
  world := w
  shm := sample_shm
  event_thread := et
  worker_calls := []
  furi_hal_ble := ⟨some 7, .Unknown⟩
  core2_locked := false

/-- A co-processor whose installed radio stack is of a type the host does not
support (HCI-only, type 0x02); it answers every command with zero and sends no event. -/
def hci_only_copro : Copro where
  answer := fun _ => ⟨0, 0⟩
  wireless_info := { sample_wireless_info with StackType := 0x02 }
  events := fun _ => []

/-- The firmware information the host holds after reading the table of
`hci_only_copro` while in `Stack` mode. -/
def hci_only_info : BleGlueC2Info where
  mode := .Stack
  VersionMajor := 1
  VersionMinor := 17
  VersionSub := 0
  VersionBranch := 0
  VersionReleaseType := 0
  MemorySizeSram2B := 0
  MemorySizeSram2A := 0
  MemorySizeSram1 := 0
  MemorySizeFlash := 0
  StackType := 0x02
  StackTypeString := "1.17.0:H"
  FusVersionMajor := 1
  FusVersionMinor := 2
  FusVersionSub := 0
  FusMemorySizeSram2B := 0
  FusMemorySizeSram2A := 0
  FusMemorySizeFlash := 0

/-- The state object in status `C2Started` holding `hci_only_info`. -/
def hci_only_glue : BleGlue :=
  { sample_glue .C2Started .Stack 0 0 with c2_info := hci_only_info }

/-- The `ble_system.c` state around `hci_only_glue`. -/
def hci_only_world : World :=
  { sample_world .C2Started .Stack 0 0 with ble_glue := some hci_only_glue }

/-! ## Mode switch: `ble_system_force_c2_mode` -/

/-- C1 (as amended): for a desired mode `x` equal to the current mode, the call
returns `OK` and leaves the state, command trace included, untouched when `x` is
`FUS` or `Stack`; when `x` is `Unknown` the entry check fails and the call is fatal,
again without any command. -/
theorem force_c2_mode_same_mode (K : ShciConst) (c2 : Copro) (x : BleGlueC2Mode) (w : World)
    (g : BleGlue) (hg : w.ble_glue = some g) (hm : g.c2_info.mode = x) :
    (x ≠ .Unknown → ble_system_force_c2_mode K c2 x w = .returned .OK w) ∧
      (x = .Unknown → ble_system_force_c2_mode K c2 x w = .fatal w) := by
  subst hm
  constructor
  · intro hx
    have hpos : g.c2_info.mode.toNat > BleGlueC2Mode.Unknown.toNat := by
      cases hmode : g.c2_info.mode <;> simp_all [BleGlueC2Mode.toNat]
    simp [ble_system_force_c2_mode, hg, hpos]
  · intro hx
    simp [ble_system_force_c2_mode, hx, BleGlueC2Mode.toNat]

/-- C1, concrete run of the amended statement: current mode `Stack`, desired `Stack`. -/
theorem force_c2_mode_same_mode_witness :
    (sample_world .C2Started .Stack 1 17).ble_glue = some (sample_glue .C2Started .Stack 1 17) ∧
      (sample_glue .C2Started .Stack 1 17).c2_info.mode = .Stack ∧
      ble_system_force_c2_mode stm32wb (quiet_copro 0 0) .Stack (sample_world .C2Started .Stack 1 17)
        = .returned .OK (sample_world .C2Started .Stack 1 17) :=
  ⟨rfl, rfl,
    (force_c2_mode_same_mode stm32wb (quiet_copro 0 0) .Stack (sample_world .C2Started .Stack 1 17)
      (sample_glue .C2Started .Stack 1 17) rfl rfl).1 (by decide)⟩

/-- C1, counterexample to the claim as written: with current mode `Unknown`, asking
for `Unknown` does not return `OK`; the call ends in the failed entry check. -/
theorem force_c2_mode_unknown_is_fatal :
    (sample_glue .Startup .Unknown 0 0).c2_info.mode = .Unknown ∧
      ble_system_force_c2_mode stm32wb (quiet_copro 0 0) .Unknown (sample_world .Startup .Unknown 0 0)
        = .fatal (sample_world .Startup .Unknown 0 0) ∧
      ble_system_force_c2_mode stm32wb (quiet_copro 0 0) .Unknown (sample_world .Startup .Unknown 0 0)
        ≠ .returned .OK (sample_world .Startup .Unknown 0 0) := by
  refine ⟨rfl, ?_, ?_⟩ <;> simp [ble_system_force_c2_mode, BleGlueC2Mode.toNat]

/-- C2: in `FUS` mode with recorded radio-stack version 0.0, asking for `Stack`
returns `Error` and leaves the state untouched: no command is appended to the trace,
whatever the remaining fields of the information record hold. -/
theorem force_c2_mode_stack_not_installed (K : ShciConst) (c2 : Copro) (w : World) (g : BleGlue)
    (hg : w.ble_glue = some g) (hm : g.c2_info.mode = .FUS)
    (hmaj : g.c2_info.VersionMajor = 0) (hmin : g.c2_info.VersionMinor = 0) :
    ble_system_force_c2_mode K c2 .Stack w = .returned .Error w := by
  simp [ble_system_force_c2_mode, hg, hm, hmaj, hmin, BleGlueC2Mode.toNat]

/-- C2, concrete run: `FUS` mode, version 0.0. -/
theorem force_c2_mode_stack_not_installed_witness :
    (sample_world .C2Started .FUS 0 0).ble_glue = some (sample_glue .C2Started .FUS 0 0) ∧
      ble_system_force_c2_mode stm32wb (quiet_copro 0 0) .Stack (sample_world .C2Started .FUS 0 0)
        = .returned .Error (sample_world .C2Started .FUS 0 0) :=
  ⟨rfl, force_c2_mode_stack_not_installed stm32wb (quiet_copro 0 0) (sample_world .C2Started .FUS 0 0)
    (sample_glue .C2Started .FUS 0 0) rfl rfl rfl rfl⟩

/-- C3: in `FUS` mode with a radio image installed (version not 0.0), asking for
`Stack` appends exactly one start-radio-stack command to the trace and changes
nothing else; the result is `RestartPending` when the answer is the success status
and `Error` for every other answer, hence never `OK` nor `OperationOngoing`.
The code tests the status for zero, which is the vendor's success value. -/
theorem force_c2_mode_fus_to_stack (K : ShciConst) (c2 : Copro) (w : World) (g : BleGlue)
    (hg : w.ble_glue = some g) (hm : g.c2_info.mode = .FUS)
    (hv : ¬ (g.c2_info.VersionMajor = 0 ∧ g.c2_info.VersionMinor = 0))
    (hS : K.SHCI_Success = 0) :
    ∃ r, ble_system_force_c2_mode K c2 .Stack w
          = .returned r { w with issued := w.issued ++ [.FUS_StartWs] } ∧
      ((c2.answer w.issued.length).value = K.SHCI_Success → r = .RestartPending) ∧
      ((c2.answer w.issued.length).value ≠ K.SHCI_Success → r = .Error) ∧
      r ≠ .OK ∧ r ≠ .OperationOngoing := by
  by_cases hst : (c2.answer w.issued.length).value = 0
  · refine ⟨.RestartPending, ?_, ?_, ?_, ?_, ?_⟩
    · simp [ble_system_force_c2_mode, hg, hm, hv, hst, BleGlueC2Mode.toNat,
        SHCI_C2_FUS_StartWs, shci_send]
    · intro _; rfl
    · intro h; exact absurd (hS ▸ hst) h
    · decide
    · decide
  · refine ⟨.Error, ?_, ?_, ?_, ?_, ?_⟩
    · simp [ble_system_force_c2_mode, hg, hm, hv, hst, BleGlueC2Mode.toNat,
        SHCI_C2_FUS_StartWs, shci_send]
    · intro h; exact absurd (hS ▸ h) hst
    · intro _; rfl
    · decide
    · decide

/-- C3, concrete run: `FUS` mode, radio stack 1.17 installed, the command succeeds. -/
theorem force_c2_mode_fus_to_stack_witness :
    (sample_world .C2Started .FUS 1 17).ble_glue = some (sample_glue .C2Started .FUS 1 17) ∧
      ¬ ((sample_glue .C2Started .FUS 1 17).c2_info.VersionMajor = 0 ∧
          (sample_glue .C2Started .FUS 1 17).c2_info.VersionMinor = 0) ∧
      ∃ r, ble_system_force_c2_mode stm32wb (quiet_copro 0 0) .Stack
            (sample_world .C2Started .FUS 1 17)
            = .returned r
                { sample_world .C2Started .FUS 1 17 with
                  issued := (sample_world .C2Started .FUS 1 17).issued ++ [.FUS_StartWs] } ∧
        (((quiet_copro 0 0).answer (sample_world .C2Started .FUS 1 17).issued.length).value
            = stm32wb.SHCI_Success → r = .RestartPending) ∧
        (((quiet_copro 0 0).answer (sample_world .C2Started .FUS 1 17).issued.length).value
            ≠ stm32wb.SHCI_Success → r = .Error) ∧
        r ≠ .OK ∧ r ≠ .OperationOngoing :=
  ⟨rfl, by decide,
    force_c2_mode_fus_to_stack stm32wb (quiet_copro 0 0) (sample_world .C2Started .FUS 1 17)
      (sample_glue .C2Started .FUS 1 17) rfl rfl (by decide) rfl⟩

/-- C4: in `Stack` mode, asking for `FUS` issues one state query; when its answer is
"command not supported" the same query is issued exactly once more and the result is
`RestartPending` whatever comes back; for every other first answer, and whatever the
error code, no second query is issued and the result is `OK`. -/
theorem force_c2_mode_stack_to_fus (K : ShciConst) (c2 : Copro) (w : World) (g : BleGlue)
    (hg : w.ble_glue = some g) (hm : g.c2_info.mode = .Stack) :
    ble_system_force_c2_mode K c2 .FUS w =
      if (c2.answer w.issued.length).value = K.SHCI_FUS_CMD_NOT_SUPPORTED then
        .returned .RestartPending
          { w with issued := w.issued ++ [.FUS_GetState, .FUS_GetState] }
      else .returned .OK { w with issued := w.issued ++ [.FUS_GetState] } := by
  by_cases hst : (c2.answer w.issued.length).value = K.SHCI_FUS_CMD_NOT_SUPPORTED <;>
    simp [ble_system_force_c2_mode, hg, hm, hst, BleGlueC2Mode.toNat, SHCI_C2_FUS_GetState,
      shci_send]

/-- C4, concrete run: the first query answers 0xFF ("command not supported"). -/
theorem force_c2_mode_stack_to_fus_witness :
    (sample_world .C2Started .Stack 1 17).ble_glue = some (sample_glue .C2Started .Stack 1 17) ∧
      ble_system_force_c2_mode stm32wb (quiet_copro 0xFF 0) .FUS (sample_world .C2Started .Stack 1 17)
        = .returned .RestartPending
            { sample_world .C2Started .Stack 1 17 with issued := [.FUS_GetState, .FUS_GetState] } :=
  ⟨rfl, force_c2_mode_stack_to_fus stm32wb (quiet_copro 0xFF 0) (sample_world .C2Started .Stack 1 17)
    (sample_glue .C2Started .Stack 1 17) rfl rfl⟩

/-! ## Firmware-update commands -/

/-- C5: in `FUS` mode the status query issues one state query and maps the reported
state byte `s` and error code `e`: `Error` when `e` is nonzero or `s` is the error
state; otherwise `OperationOngoing` when `s` lies in the vendor's ongoing range;
otherwise `OK`.  The result is never `RestartPending` nor `Unknown`. -/
theorem fus_get_status_mapping (K : ShciConst) (c2 : Copro) (w : World) (g : BleGlue)
    (s e : Nat) (hg : w.ble_glue = some g) (hm : g.c2_info.mode = .FUS)
    (ha : c2.answer w.issued.length = ⟨s, e⟩) :
    ∃ r, ble_system_fus_get_status K c2 w
          = .returned r { w with issued := w.issued ++ [.FUS_GetState] } ∧
      r = (if e ≠ 0 ∨ s = K.FUS_STATE_VALUE_ERROR then BleGlueCommandResult.Error
           else if K.FUS_STATE_VALUE_FW_UPGRD_ONGOING ≤ s ∧
               s ≤ K.FUS_STATE_VALUE_SERVICE_ONGOING_END then .OperationOngoing
           else .OK) ∧
      r ≠ .RestartPending ∧ r ≠ .Unknown := by
  refine ⟨_, ?_, rfl, ?_, ?_⟩
  · simp only [ble_system_fus_get_status, hg, hm, SHCI_C2_FUS_GetState, shci_send, ha]
    by_cases h1 : e ≠ 0 ∨ s = K.FUS_STATE_VALUE_ERROR
    · simp [h1]
    · by_cases h2 : K.FUS_STATE_VALUE_FW_UPGRD_ONGOING ≤ s ∧
          s ≤ K.FUS_STATE_VALUE_SERVICE_ONGOING_END
      · simp [h1, h2]
      · simp [h1, h2]
  · split_ifs <;> decide
  · split_ifs <;> decide

/-- C5, concrete run: state byte 0x20 with error code 0 is reported as ongoing. -/
theorem fus_get_status_mapping_witness :
    (sample_world .C2Started .FUS 1 17).ble_glue = some (sample_glue .C2Started .FUS 1 17) ∧
      (quiet_copro 0x20 0).answer (sample_world .C2Started .FUS 1 17).issued.length = ⟨0x20, 0⟩ ∧
      ∃ r, ble_system_fus_get_status stm32wb (quiet_copro 0x20 0) (sample_world .C2Started .FUS 1 17)
            = .returned r
                { sample_world .C2Started .FUS 1 17 with
                  issued := (sample_world .C2Started .FUS 1 17).issued ++ [.FUS_GetState] } ∧
        r = (if 0 ≠ 0 ∨ 0x20 = stm32wb.FUS_STATE_VALUE_ERROR then BleGlueCommandResult.Error
             else if stm32wb.FUS_STATE_VALUE_FW_UPGRD_ONGOING ≤ 0x20 ∧
                 0x20 ≤ stm32wb.FUS_STATE_VALUE_SERVICE_ONGOING_END then .OperationOngoing
             else .OK) ∧
        r ≠ .RestartPending ∧ r ≠ .Unknown :=
  ⟨rfl, rfl,
    fus_get_status_mapping stm32wb (quiet_copro 0x20 0) (sample_world .C2Started .FUS 1 17)
      (sample_glue .C2Started .FUS 1 17) 0x20 0 rfl rfl rfl⟩

/-- Outside `FUS` mode the status query stops in its entry check before any command
is issued. -/
theorem fus_get_status_outside_fus (K : ShciConst) (c2 : Copro) (w : World) (g : BleGlue)
    (hg : w.ble_glue = some g) (hm : g.c2_info.mode ≠ .FUS) :
    ble_system_fus_get_status K c2 w = .fatal w := by
  simp [ble_system_fus_get_status, hg, hm]

/-- Outside `FUS` mode, erase and install reach the fatal check only when the
co-processor rejects the command: the check sits in the status query that follows
a rejected submission. -/
theorem fus_stack_commands_rejected_outside_fus (K : ShciConst) (c2 : Copro) (w : World)
    (g : BleGlue) (src_addr dst_addr : Nat) (hg : w.ble_glue = some g)
    (hm : g.c2_info.mode ≠ .FUS) (hrej : (c2.answer w.issued.length).value ≠ K.SHCI_Success) :
    ble_system_fus_stack_delete K c2 w = .fatal { w with issued := w.issued ++ [.FUS_FwDelete] } ∧
      ble_system_fus_stack_install K c2 src_addr dst_addr w
        = .fatal { w with issued := w.issued ++ [.FUS_FwUpgrade src_addr dst_addr] } := by
  constructor
  · simp [ble_system_fus_stack_delete, SHCI_C2_FUS_FwDelete, shci_send, hrej,
      ble_system_fus_get_status, hg, hm]
  · simp [ble_system_fus_stack_install, SHCI_C2_FUS_FwUpgrade, shci_send, hrej,
      ble_system_fus_get_status, hg, hm]

/-- C6, the code at the failing input: in `Stack` mode, when the co-processor answers
the erase (or install) command with the success status, the call returns
`OperationOngoing`; no mode check is reached. -/
theorem fus_stack_commands_return_outside_fus :
    (sample_glue .C2Started .Stack 1 17).c2_info.mode ≠ .FUS ∧
      ble_system_fus_stack_delete stm32wb (quiet_copro 0 0) (sample_world .C2Started .Stack 1 17)
        = .returned .OperationOngoing
            { sample_world .C2Started .Stack 1 17 with issued := [.FUS_FwDelete] } ∧
      ble_system_fus_stack_install stm32wb (quiet_copro 0 0) 0x8000000 0x80A0000
          (sample_world .C2Started .Stack 1 17)
        = .returned .OperationOngoing
            { sample_world .C2Started .Stack 1 17 with
              issued := [.FUS_FwUpgrade 0x8000000 0x80A0000] } := by
  refine ⟨by decide, ?_, ?_⟩
  · simp [ble_system_fus_stack_delete, SHCI_C2_FUS_FwDelete, shci_send, quiet_copro, stm32wb,
      sample_world]
  · simp [ble_system_fus_stack_install, SHCI_C2_FUS_FwUpgrade, shci_send, quiet_copro, stm32wb,
      sample_world]

/-! ## Hardfault record -/

/-- C7: for every content of the four words of the record, the read reports NULL
when the magic word differs from 0x1170FD0F, and otherwise reports the record with
`source_pc`, `source_lr` and `source_sp` exactly as stored. -/
theorem get_hardfault_info_spec (magic source_pc source_lr source_sp : Nat) :
    ble_system_get_hardfault_info ⟨magic, source_pc, source_lr, source_sp⟩ =
      if magic = 0x1170FD0F then some ⟨0x1170FD0F, source_pc, source_lr, source_sp⟩ else none := by
  by_cases h : magic = 0x1170FD0F
  · subst h
    simp [ble_system_get_hardfault_info, ble_system_HARDFAULT_INFO_MAGIC]
  · simp [ble_system_get_hardfault_info, ble_system_HARDFAULT_INFO_MAGIC, h]

/-! ## Event dispatch during a delay -/

/-- The handler always returns on an initialised system; it touches neither the
tick counter nor the command trace, an event other than the ready notification
leaves the state object as it was, and a ready notification sets `C2Started`. -/
theorem sys_user_event_callback_spec (K : ShciConst) (ev : TL_AsynchEvt_t) (w : World)
    (g : BleGlue) (hg : w.ble_glue = some g) :
    ∃ w' g', ble_system_sys_user_event_callback K ev w = .returned () w' ∧
      w'.ble_glue = some g' ∧ w'.ticks = w.ticks ∧ w'.issued = w.issued ∧
      w'.stack_init_calls = w.stack_init_calls ∧
      (ev.subevtcode ≠ K.SHCI_SUB_EVT_CODE_READY → g' = g) ∧
      (ev.subevtcode = K.SHCI_SUB_EVT_CODE_READY → g'.status = .C2Started) := by
  unfold ble_system_sys_user_event_callback
  by_cases hr : ev.subevtcode = K.SHCI_SUB_EVT_CODE_READY
  · rw [if_pos hr, hg]
    exact ⟨_, _, rfl, rfl, rfl, rfl, rfl, fun h => absurd hr h, fun _ => rfl⟩
  · rw [if_neg hr]
    by_cases he : ev.subevtcode = K.SHCI_SUB_EVT_ERROR_NOTIF
    · rw [if_pos he]
      exact ⟨w, g, rfl, hg, rfl, rfl, rfl, fun _ => rfl, fun h => absurd h hr⟩
    · rw [if_neg he]
      by_cases hn : ev.subevtcode = K.SHCI_SUB_EVT_BLE_NVM_RAM_UPDATE
      · rw [if_pos hn, hg]
        dsimp only
        cases g.callback with
        | none => exact ⟨w, g, rfl, hg, rfl, rfl, rfl, fun _ => rfl, fun h => absurd h hr⟩
        | some cb => exact ⟨_, g, rfl, rfl, rfl, rfl, rfl, fun _ => rfl, fun h => absurd h hr⟩
      · rw [if_neg hn]
        exact ⟨w, g, rfl, hg, rfl, rfl, rfl, fun _ => rfl, fun h => absurd h hr⟩

/-- Dispatching a list of events on an initialised system returns; ticks and
command trace are kept; without a ready notification in the list the state object is
unchanged, with one the status ends as `C2Started`, and in every case the status is
either the old one or `C2Started`. -/
theorem shci_user_evt_proc_spec (K : ShciConst) (evs : List TL_AsynchEvt_t) :
    ∀ (w : World) (g : BleGlue), w.ble_glue = some g →
      ∃ w' g', shci_user_evt_proc K evs w = .returned () w' ∧
        w'.ble_glue = some g' ∧ w'.ticks = w.ticks ∧ w'.issued = w.issued ∧
        w'.stack_init_calls = w.stack_init_calls ∧
        ((∀ ev ∈ evs, ev.subevtcode ≠ K.SHCI_SUB_EVT_CODE_READY) → g' = g) ∧
        ((∃ ev ∈ evs, ev.subevtcode = K.SHCI_SUB_EVT_CODE_READY) → g'.status = .C2Started) ∧
        (g'.status = g.status ∨ g'.status = .C2Started) := by
  induction evs with
  | nil =>
    intro w g hg
    exact ⟨w, g, rfl, hg, rfl, rfl, rfl, fun _ => rfl, fun h => by simp at h, Or.inl rfl⟩
  | cons ev rest ih =>
    intro w g hg
    obtain ⟨w1, g1, h1, hg1, ht1, hi1, hc1, hn1, hr1⟩ := sys_user_event_callback_spec K ev w g hg
    obtain ⟨w2, g2, h2, hg2, ht2, hi2, hc2, hn2, hr2, hs2⟩ := ih w1 g1 hg1
    have hstep : g1.status = g.status ∨ g1.status = .C2Started := by
      by_cases hr : ev.subevtcode = K.SHCI_SUB_EVT_CODE_READY
      · exact Or.inr (hr1 hr)
      · exact Or.inl (by rw [hn1 hr])
    refine ⟨w2, g2, ?_, hg2, by rw [ht2, ht1], by rw [hi2, hi1], by rw [hc2, hc1], ?_, ?_, ?_⟩
    · simp only [shci_user_evt_proc, h1]
      exact h2
    · intro hall
      rw [hn2 (fun e he => hall e (List.mem_cons_of_mem _ he)),
        hn1 (hall ev (List.mem_cons_self _ _))]
    · rintro ⟨e, he, hre⟩
      rcases List.mem_cons.mp he with rfl | hin
      · rcases hs2 with h | h
        · rw [h]; exact hr1 hre
        · exact h
      · exact hr2 ⟨e, hin, hre⟩
    · rcases hs2 with h | h
      · rcases hstep with h' | h'
        · exact Or.inl (by rw [h, h'])
        · exact Or.inr (by rw [h, h'])
      · exact Or.inr h

/-- One one-tick delay on an initialised system returns with the tick counter
advanced by one and the events of that tick dispatched. -/
theorem furi_delay_tick_spec (K : ShciConst) (c2 : Copro) (w : World) (g : BleGlue)
    (hg : w.ble_glue = some g) :
    ∃ w' g', furi_delay_tick K c2 w = .returned () w' ∧
      w'.ble_glue = some g' ∧ w'.ticks = w.ticks + 1 ∧ w'.issued = w.issued ∧
      w'.stack_init_calls = w.stack_init_calls ∧
      ((∀ ev ∈ c2.events w.ticks, ev.subevtcode ≠ K.SHCI_SUB_EVT_CODE_READY) → g' = g) ∧
      ((∃ ev ∈ c2.events w.ticks, ev.subevtcode = K.SHCI_SUB_EVT_CODE_READY) →
        g'.status = .C2Started) ∧
      (g'.status = g.status ∨ g'.status = .C2Started) := by
  obtain ⟨w1, g1, h1, hg1, ht1, hi1, hc1, hn1, hr1, hs1⟩ :=
    shci_user_evt_proc_spec K (c2.events w.ticks) w g hg
  refine ⟨{ w1 with ticks := w1.ticks + 1 }, g1, ?_, hg1, ?_, hi1, hc1, hn1, hr1, hs1⟩
  · simp only [furi_delay_tick, h1]
  · simp [ht1]

/-! ## Readiness wait: `ble_system_wait_for_c2_start` -/

/-- A positive timeout is decremented without wrapping. -/
theorem int32_dec_of_pos (t : Int) (h : 0 < t) : int32_dec t = t - 1 := by
  unfold int32_dec
  split_ifs <;> omega

/-- A pass of the loop that reads `C2Started` ends the loop with `started = true`. -/
theorem wait_loop_started (K : ShciConst) (c2 : Copro) (t : Int) (w : World) (g : BleGlue)
    (hg : w.ble_glue = some g) (hs : g.status = .C2Started) :
    wait_for_c2_start_loop K c2 t w = .returned true w := by
  rw [wait_for_c2_start_loop]
  simp [hg, hs]

/-- A pass of the loop that reads another status sleeps one tick and repeats
only when the decremented timeout is still positive. -/
theorem wait_loop_step (K : ShciConst) (c2 : Copro) (t : Int) (w : World) (g : BleGlue)
    (hg : w.ble_glue = some g) (hs : g.status ≠ .C2Started) :
    wait_for_c2_start_loop K c2 t w =
      match furi_delay_tick K c2 w with
      | .returned _ w1 =>
        if 0 < int32_dec t then wait_for_c2_start_loop K c2 (int32_dec t) w1
        else .returned false w1
      | .fatal w1 => .fatal w1
      | .undefined => .undefined := by
  rw [wait_for_c2_start_loop]
  simp [hg, hs]

/-- While no ready notification is dispatched and the timeout is not used up, the
loop keeps sleeping: after `n` quiet ticks it stands at timeout `t - n` with the state
object, the command trace and the bring-up counter unchanged. -/
theorem wait_loop_quiet (K : ShciConst) (c2 : Copro) (n : Nat) :
    ∀ (t : Int) (w : World) (g : BleGlue), w.ble_glue = some g → g.status ≠ .C2Started →
      (n : Int) < t →
      (∀ k, w.ticks ≤ k → k < w.ticks + n →
        ∀ ev ∈ c2.events k, ev.subevtcode ≠ K.SHCI_SUB_EVT_CODE_READY) →
      ∃ w', wait_for_c2_start_loop K c2 t w = wait_for_c2_start_loop K c2 (t - n) w' ∧
        w'.ble_glue = some g ∧ w'.ticks = w.ticks + n ∧ w'.issued = w.issued ∧
        w'.stack_init_calls = w.stack_init_calls := by
  induction n with
  | zero =>
    intro t w g hg _ _ _
    exact ⟨w, by simp, hg, rfl, rfl, rfl⟩
  | succ n ih =>
    intro t w g hg hs hlt hq
    obtain ⟨w1, g1, h1, hg1, ht1, hi1, hc1, hn1, -, -⟩ := furi_delay_tick_spec K c2 w g hg
    have hgg : g1 = g := hn1 (hq w.ticks (le_refl _) (by omega))
    subst hgg
    have hpos : 0 < t - 1 := by push_cast at hlt; omega
    have hdec : int32_dec t = t - 1 := int32_dec_of_pos t (by omega)
    obtain ⟨w2, h2, hg2, ht2, hi2, hc2⟩ := ih (t - 1) w1 g1 hg1 hs (by push_cast at hlt; omega)
      (fun k hk1 hk2 => hq k (by omega) (by omega))
    refine ⟨w2, ?_, hg2, by omega, by rw [hi2, hi1], by rw [hc2, hc1]⟩
    rw [wait_loop_step K c2 t w g1 hg hs, h1, hdec]
    simp only [hpos, if_true]
    rw [h2]
    congr 1
    push_cast
    ring

/-- C8: for every timeout `T ≥ 1`, from status `Startup`, when no ready notification
is dispatched during the `T` ticks of the call, the wait performs exactly `T` one-tick
delays, returns false and leaves the status `Broken`; the rest of the state object
and the command trace are unchanged. -/
theorem wait_for_c2_start_timeout (K : ShciConst) (c2 : Copro) (T : Int) (w : World)
    (g : BleGlue) (hT : 1 ≤ T) (hg : w.ble_glue = some g) (hs : g.status = .Startup)
    (hquiet : ∀ k, w.ticks ≤ k → k < w.ticks + T.toNat →
      ∀ ev ∈ c2.events k, ev.subevtcode ≠ K.SHCI_SUB_EVT_CODE_READY) :
    ∃ w', ble_system_wait_for_c2_start K c2 T w = .returned false w' ∧
      w'.ticks = w.ticks + T.toNat ∧
      w'.ble_glue = some { g with status := .Broken } ∧
      w'.issued = w.issued := by
  have hns : g.status ≠ .C2Started := by rw [hs]; decide
  obtain ⟨w1, h1, hg1, ht1, hi1, -⟩ := wait_loop_quiet K c2 (T.toNat - 1) T w g hg hns
    (by omega) (fun k hk1 hk2 => hquiet k hk1 (by omega))
  have hT1 : T - ((T.toNat - 1 : Nat) : Int) = 1 := by omega
  rw [hT1] at h1
  obtain ⟨w2, g2, h2, hg2, ht2, hi2, -, hn2, -, -⟩ := furi_delay_tick_spec K c2 w1 g hg1
  have hgg : g2 = g := hn2 (hquiet w1.ticks (by omega) (by omega))
  subst hgg
  have hloop : wait_for_c2_start_loop K c2 T w = .returned false w2 := by
    rw [h1, wait_loop_step K c2 1 w1 g2 hg1 hns, h2]
    simp [int32_dec]
  refine ⟨{ w2 with ble_glue := some { g2 with status := .Broken } }, ?_, ?_, rfl, ?_⟩
  · simp only [ble_system_wait_for_c2_start, hloop, hg2]
  · show w2.ticks = _
    omega
  · show w2.issued = _
    rw [hi2, hi1]

/-- C8, concrete run: timeout 50, status `Startup`, a co-processor that never reports. -/
theorem wait_for_c2_start_timeout_witness :
    (1 : Int) ≤ 50 ∧ (sample_glue .Startup .Unknown 0 0).status = .Startup ∧
      ∃ w', ble_system_wait_for_c2_start stm32wb (quiet_copro 0 0) 50
            (sample_world .Startup .Unknown 0 0) = .returned false w' ∧
        w'.ticks = (sample_world .Startup .Unknown 0 0).ticks + (50 : Int).toNat ∧
        w'.ble_glue = some { sample_glue .Startup .Unknown 0 0 with status := .Broken } ∧
        w'.issued = (sample_world .Startup .Unknown 0 0).issued :=
  ⟨by decide, rfl,
    wait_for_c2_start_timeout stm32wb (quiet_copro 0 0) 50 (sample_world .Startup .Unknown 0 0)
      (sample_glue .Startup .Unknown 0 0) (by decide) rfl rfl
      (fun _ _ _ ev hev => absurd hev (List.not_mem_nil ev))⟩

/-- Copying the firmware information returns on an initialised system and keeps
status, mode, tick counter, command trace and bring-up counter. -/
theorem update_c2_fw_info_spec (K : ShciConst) (c2 : Copro) (w : World) (g : BleGlue)
    (hg : w.ble_glue = some g) :
    ∃ w' g', ble_system_update_c2_fw_info K c2 w = .returned () w' ∧
      w'.ble_glue = some g' ∧ g'.status = g.status ∧ g'.c2_info.mode = g.c2_info.mode ∧
      w'.ticks = w.ticks ∧ w'.issued = w.issued ∧
      w'.stack_init_calls = w.stack_init_calls := by
  unfold ble_system_update_c2_fw_info
  rw [hg]
  exact ⟨_, _, rfl, rfl, rfl, rfl, rfl, rfl, rfl⟩

/-- A ready notification dispatched at tick `k` of the call, with at least one
further pass left (`k + 1 < T`), is seen by the next pass: the wait returns true after
`k + 1` delays with status `C2Started`. -/
theorem wait_for_c2_start_ready_before_last_tick (K : ShciConst) (c2 : Copro) (T : Int)
    (w : World) (g : BleGlue) (k : Nat) (hk : (k : Int) + 1 < T) (hg : w.ble_glue = some g)
    (hs : g.status = .Startup)
    (hquiet : ∀ j, w.ticks ≤ j → j < w.ticks + k →
      ∀ ev ∈ c2.events j, ev.subevtcode ≠ K.SHCI_SUB_EVT_CODE_READY)
    (hready : ∃ ev ∈ c2.events (w.ticks + k), ev.subevtcode = K.SHCI_SUB_EVT_CODE_READY) :
    ∃ w' g', ble_system_wait_for_c2_start K c2 T w = .returned true w' ∧
      w'.ble_glue = some g' ∧ g'.status = .C2Started ∧ w'.ticks = w.ticks + k + 1 := by
  have hns : g.status ≠ .C2Started := by rw [hs]; decide
  obtain ⟨w1, h1, hg1, ht1, -, -⟩ := wait_loop_quiet K c2 k T w g hg hns (by omega) hquiet
  obtain ⟨w2, g2, h2, hg2, ht2, -, -, -, hr2, -⟩ := furi_delay_tick_spec K c2 w1 g hg1
  have hst : g2.status = .C2Started := hr2 (by rw [ht1]; exact hready)
  have hpos : 0 < T - (k : Int) - 1 := by omega
  have hloop : wait_for_c2_start_loop K c2 T w = .returned true w2 := by
    rw [h1, wait_loop_step K c2 _ w1 g hg1 hns, h2,
      int32_dec_of_pos (T - (k : Int)) (by omega)]
    simp only [hpos, if_true]
    exact wait_loop_started K c2 _ w2 g2 hg2 hst
  obtain ⟨w3, g3, h3, hg3, hs3, -, ht3, -, -⟩ := update_c2_fw_info_spec K c2 w2 g2 hg2
  refine ⟨w3, g3, ?_, hg3, by rw [hs3, hst], by omega⟩
  simp only [ble_system_wait_for_c2_start, hloop, h3]

/-- A ready notification dispatched during the last tick of the call is not seen:
the loop ends on the used-up timeout without reading the status again, so the wait
returns false and overwrites the status `C2Started` just set by the handler with
`Broken`. -/
theorem wait_for_c2_start_ready_in_last_tick (K : ShciConst) (c2 : Copro) (T : Int)
    (w : World) (g : BleGlue) (hT : 1 ≤ T) (hg : w.ble_glue = some g)
    (hs : g.status = .Startup)
    (hquiet : ∀ j, w.ticks ≤ j → j < w.ticks + (T.toNat - 1) →
      ∀ ev ∈ c2.events j, ev.subevtcode ≠ K.SHCI_SUB_EVT_CODE_READY)
    (hready : ∃ ev ∈ c2.events (w.ticks + (T.toNat - 1)),
      ev.subevtcode = K.SHCI_SUB_EVT_CODE_READY) :
    ∃ w1 g1, wait_for_c2_start_loop K c2 T w = .returned false w1 ∧
      w1.ble_glue = some g1 ∧ g1.status = .C2Started ∧ w1.ticks = w.ticks + T.toNat ∧
      ble_system_wait_for_c2_start K c2 T w
        = .returned false { w1 with ble_glue := some { g1 with status := .Broken } } := by
  have hns : g.status ≠ .C2Started := by rw [hs]; decide
  obtain ⟨w1, h1, hg1, ht1, -, -⟩ := wait_loop_quiet K c2 (T.toNat - 1) T w g hg hns
    (by omega) hquiet
  have hT1 : T - ((T.toNat - 1 : Nat) : Int) = 1 := by omega
  rw [hT1] at h1
  obtain ⟨w2, g2, h2, hg2, ht2, -, -, -, hr2, -⟩ := furi_delay_tick_spec K c2 w1 g hg1
  have hst : g2.status = .C2Started := hr2 (by rw [ht1]; exact hready)
  have hloop : wait_for_c2_start_loop K c2 T w = .returned false w2 := by
    rw [h1, wait_loop_step K c2 1 w1 g hg1 hns, h2]
    simp [int32_dec]
  refine ⟨w2, g2, hloop, hg2, hst, by omega, ?_⟩
  simp only [ble_system_wait_for_c2_start, hloop, hg2]

/-- C9, the code at the failing input: with timeout 100 and the ready notification
dispatched during tick 99 (status `Startup` before it), and likewise with timeout 1
and the notification during tick 0, the wait returns false and the status on return
is `Broken`, although the co-processor reported before the timeout was reached. -/
theorem wait_for_c2_start_misses_last_tick :
    (∃ w' g', ble_system_wait_for_c2_start stm32wb (ready_at 99) 100
          (sample_world .Startup .Unknown 0 0) = .returned false w' ∧
        w'.ble_glue = some g' ∧ g'.status = .Broken ∧ w'.ticks = 100) ∧
      ble_system_wait_for_c2_start stm32wb (ready_at 0) 1 (sample_world .Startup .Unknown 0 0)
        = .returned false { sample_world .Broken .Stack 0 0 with ticks := 1 } := by
  constructor
  · obtain ⟨w1, g1, -, -, -, ht, h⟩ :=
      wait_for_c2_start_ready_in_last_tick stm32wb (ready_at 99) 100
        (sample_world .Startup .Unknown 0 0) (sample_glue .Startup .Unknown 0 0)
        (by decide) rfl rfl
        (fun j _ hj => by
          have hj' : j ≠ 99 := by
            have : j < 99 := by simpa [sample_world] using hj
            omega
          simp [ready_at, hj'])
        ⟨ready_event, by simp [ready_at, sample_world], rfl⟩
    exact ⟨_, _, h, rfl, rfl, by simpa [sample_world] using ht⟩
  · rw [ble_system_wait_for_c2_start, wait_for_c2_start_loop]
    simp [sample_world, sample_glue, sample_info, furi_delay_tick, ready_at, shci_user_evt_proc,
      ble_system_sys_user_event_callback, ready_event, stm32wb, int32_dec]

/-! ## Lifecycle transitions -/

/-- The loop of the readiness wait always ends on an initialised system.  It ends
with `started = true` only on reading `C2Started`, which, when the status was
different on entry, was set by a ready notification dispatched during one of the
ticks of the call.  It ends with `started = false` only when the status read on
entry was not `C2Started`, after one delay and as many more as the decremented
timeout counts, and with no ready notification dispatched in any tick before the
last of them. -/
theorem wait_loop_spec (K : ShciConst) (c2 : Copro) (n : Nat) :
    ∀ (t : Int) (w : World) (g : BleGlue), (int32_dec t).toNat ≤ n → w.ble_glue = some g →
      ∃ b w' g', wait_for_c2_start_loop K c2 t w = .returned b w' ∧
        w'.ble_glue = some g' ∧ w.ticks ≤ w'.ticks ∧
        (b = true → g'.status = .C2Started ∧
          (g.status ≠ .C2Started → ∃ k, w.ticks ≤ k ∧ k < w'.ticks ∧
            ∃ ev ∈ c2.events k, ev.subevtcode = K.SHCI_SUB_EVT_CODE_READY)) ∧
        (b = false → g.status ≠ .C2Started ∧
          w'.ticks = w.ticks + 1 + (int32_dec t).toNat ∧
          ∀ k, w.ticks ≤ k → k + 1 < w'.ticks →
            ∀ ev ∈ c2.events k, ev.subevtcode ≠ K.SHCI_SUB_EVT_CODE_READY) := by
  induction n with
  | zero =>
    intro t w g ht hg
    by_cases hs : g.status = .C2Started
    · exact ⟨true, w, g, wait_loop_started K c2 t w g hg hs, hg, le_refl _,
        fun _ => ⟨hs, fun h => absurd hs h⟩, fun h => by simp at h⟩
    · obtain ⟨w1, g1, h1, hg1, ht1, -, -, -, -, -⟩ := furi_delay_tick_spec K c2 w g hg
      have hnp : ¬ (0 < int32_dec t) := by omega
      refine ⟨false, w1, g1, ?_, hg1, by omega, fun h => by simp at h,
        fun _ => ⟨hs, by omega, fun k hk1 hk2 => by omega⟩⟩
      rw [wait_loop_step K c2 t w g hg hs, h1]
      simp only [hnp, if_false]
  | succ n ih =>
    intro t w g ht hg
    by_cases hs : g.status = .C2Started
    · exact ⟨true, w, g, wait_loop_started K c2 t w g hg hs, hg, le_refl _,
        fun _ => ⟨hs, fun h => absurd hs h⟩, fun h => by simp at h⟩
    · obtain ⟨w1, g1, h1, hg1, ht1, -, -, hn1, hr1, -⟩ := furi_delay_tick_spec K c2 w g hg
      by_cases hp : 0 < int32_dec t
      · have hdec : int32_dec (int32_dec t) = int32_dec t - 1 := int32_dec_of_pos _ hp
        obtain ⟨b, w2, g2, h2, hg2, hle2, htrue, hfalse⟩ :=
          ih (int32_dec t) w1 g1 (by omega) hg1
        refine ⟨b, w2, g2, ?_, hg2, by omega, ?_, ?_⟩
        · rw [wait_loop_step K c2 t w g hg hs, h1]
          simp only [hp, if_true]
          exact h2
        · intro hb
          refine ⟨(htrue hb).1, fun _ => ?_⟩
          by_cases hs1 : g1.status = .C2Started
          · have hex : ∃ ev ∈ c2.events w.ticks, ev.subevtcode = K.SHCI_SUB_EVT_CODE_READY := by
              by_contra hno
              push_neg at hno
              exact hs (by rw [← hn1 hno]; exact hs1)
            exact ⟨w.ticks, le_refl _, by omega, hex⟩
          · obtain ⟨k, hk1, hk2, hev⟩ := (htrue hb).2 hs1
            exact ⟨k, by omega, hk2, hev⟩
        · intro hb
          obtain ⟨hs1, hticks, hq⟩ := hfalse hb
          refine ⟨hs, by omega, fun k hk1 hk2 ev hev => ?_⟩
          by_cases hk : k = w.ticks
          · subst hk
            intro hready
            exact hs1 (hr1 ⟨ev, hev, hready⟩)
          · exact hq k (by omega) hk2 ev hev
      · refine ⟨false, w1, g1, ?_, hg1, by omega, fun h => by simp at h,
          fun _ => ⟨hs, by omega, fun k hk1 hk2 => by omega⟩⟩
        rw [wait_loop_step K c2 t w g hg hs, h1]
        simp only [hp, if_false]

/-- The readiness wait always returns on an initialised system: with true and status
`C2Started` (set, if it was different on entry, by a ready notification dispatched
during the call), or with false and status `Broken`; the latter only when the status
on entry was not `C2Started`, after all delays of the timeout, and with no ready
notification dispatched in any tick before the last one. -/
theorem wait_for_c2_start_spec (K : ShciConst) (c2 : Copro) (t : Int) (w : World)
    (g : BleGlue) (hg : w.ble_glue = some g) :
    ∃ b w' g', ble_system_wait_for_c2_start K c2 t w = .returned b w' ∧
      w'.ble_glue = some g' ∧
      (b = true → g'.status = .C2Started ∧
        (g.status ≠ .C2Started → ∃ k, w.ticks ≤ k ∧ k < w'.ticks ∧
          ∃ ev ∈ c2.events k, ev.subevtcode = K.SHCI_SUB_EVT_CODE_READY)) ∧
      (b = false → g'.status = .Broken ∧ g.status ≠ .C2Started ∧
        w'.ticks = w.ticks + 1 + (int32_dec t).toNat ∧
        ∀ k, w.ticks ≤ k → k + 1 < w'.ticks →
          ∀ ev ∈ c2.events k, ev.subevtcode ≠ K.SHCI_SUB_EVT_CODE_READY) := by
  obtain ⟨b, w1, g1, h1, hg1, -, htrue, hfalse⟩ :=
    wait_loop_spec K c2 (int32_dec t).toNat t w g (le_refl _) hg
  cases b with
  | true =>
    obtain ⟨w3, g3, h3, hg3, hs3, -, ht3, -, -⟩ := update_c2_fw_info_spec K c2 w1 g1 hg1
    refine ⟨true, w3, g3, ?_, hg3, fun _ => ⟨by rw [hs3]; exact (htrue rfl).1, fun hne => ?_⟩,
      fun h => by simp at h⟩
    · simp only [ble_system_wait_for_c2_start, h1, h3]
    · obtain ⟨k, hk1, hk2, hev⟩ := (htrue rfl).2 hne
      exact ⟨k, hk1, by omega, hev⟩
  | false =>
    refine ⟨false, { w1 with ble_glue := some { g1 with status := .Broken } }, _, ?_, rfl,
      fun h => by simp at h, fun _ => ⟨rfl, hfalse rfl⟩⟩
    simp only [ble_system_wait_for_c2_start, h1, hg1]

/-- At the least 32-bit timeout the decrement wraps to the greatest value, so a
wait that never sees a ready notification sleeps 2147483648 ticks before it gives up. -/
theorem wait_for_c2_start_at_int32_min (K : ShciConst) (c2 : Copro) (w : World) (g : BleGlue)
    (hg : w.ble_glue = some g) (hs : g.status = .Startup)
    (hquiet : ∀ k, ∀ ev ∈ c2.events k, ev.subevtcode ≠ K.SHCI_SUB_EVT_CODE_READY) :
    ∃ w', ble_system_wait_for_c2_start K c2 (-2147483648) w = .returned false w' ∧
      w'.ticks = w.ticks + 2147483648 := by
  obtain ⟨b, w1, g1, h1, -, htrue, hfalse⟩ := wait_for_c2_start_spec K c2 (-2147483648) w g hg
  cases b with
  | true =>
    obtain ⟨k, -, -, ev, hev, hready⟩ := (htrue rfl).2 (by rw [hs]; decide)
    exact absurd hready (hquiet k ev hev)
  | false =>
    refine ⟨w1, h1, ?_⟩
    have hdec : int32_dec (-2147483648) = 2147483647 := by simp [int32_dec]
    rw [(hfalse rfl).2.2.1, hdec]
    omega

/-- C10 (as amended): on an initialised system each of the three status-writing
operations returns, and whenever the status after differs from the status before,
the change is one of these:
* by the handler: the event was a ready notification and the new status is `C2Started`;
* by the readiness wait, to `Broken`: the wait returned false, the status on entry
  was not `C2Started`, the wait performed all the delays of its timeout (one, plus
  the value of the decremented timeout when that is positive: `timeout` delays for a
  timeout of at least 1), and no ready notification was dispatched in any tick before
  the last of them;
* by the readiness wait, to `C2Started`: the wait returned true and a ready
  notification was dispatched during one of its ticks;
* by the start: the old status was `C2Started` and the new one is `RadioStackRunning`
  (bring-up succeeded, returns true) or `RadioStackMissing` (failed, returns false). -/
theorem lifecycle_status_changes (K : ShciConst) (c2 : Copro) (op : LifecycleOp) (w : World)
    (g : BleGlue) (hg : w.ble_glue = some g) :
    ∃ r w' g', op.run K c2 w = .returned r w' ∧ w'.ble_glue = some g' ∧
      (g'.status ≠ g.status →
        match op with
        | .sys_user_event ev =>
          ev.subevtcode = K.SHCI_SUB_EVT_CODE_READY ∧ g'.status = .C2Started
        | .wait_for_c2_start timeout =>
          (g'.status = .Broken ∧ r = some false ∧ g.status ≠ .C2Started ∧
              w'.ticks = w.ticks + 1 + (int32_dec timeout).toNat ∧
              (1 ≤ timeout → w'.ticks = w.ticks + timeout.toNat) ∧
              (∀ k, w.ticks ≤ k → k + 1 < w'.ticks →
                ∀ ev ∈ c2.events k, ev.subevtcode ≠ K.SHCI_SUB_EVT_CODE_READY)) ∨
            (g'.status = .C2Started ∧ r = some true ∧
              ∃ k, w.ticks ≤ k ∧ k < w'.ticks ∧
                ∃ ev ∈ c2.events k, ev.subevtcode = K.SHCI_SUB_EVT_CODE_READY)
        | .start stack_init_ok =>
          g.status = .C2Started ∧ r = some stack_init_ok ∧
            g'.status = (if stack_init_ok then .RadioStackRunning else .RadioStackMissing)) := by
  cases op with
  | sys_user_event ev =>
    obtain ⟨w1, g1, h1, hg1, -, -, -, hn1, hr1⟩ := sys_user_event_callback_spec K ev w g hg
    refine ⟨none, w1, g1, by simp only [LifecycleOp.run, h1], hg1, fun hne => ?_⟩
    by_cases hr : ev.subevtcode = K.SHCI_SUB_EVT_CODE_READY
    · exact ⟨hr, hr1 hr⟩
    · exact absurd (by rw [hn1 hr]) hne
  | wait_for_c2_start timeout =>
    obtain ⟨b, w1, g1, h1, hg1, htrue, hfalse⟩ := wait_for_c2_start_spec K c2 timeout w g hg
    refine ⟨some b, w1, g1, by simp only [LifecycleOp.run, h1], hg1, fun hne => ?_⟩
    cases b with
    | true =>
      have hst := (htrue rfl).1
      exact Or.inr ⟨hst, rfl, (htrue rfl).2 (fun h => hne (by rw [hst, h]))⟩
    | false =>
      obtain ⟨hbr, hentry, hticks, hq⟩ := hfalse rfl
      refine Or.inl ⟨hbr, rfl, hentry, hticks, fun h1T => ?_, hq⟩
      rw [hticks, int32_dec_of_pos timeout (by omega)]
      omega
  | start stack_init_ok =>
    by_cases hs : g.status = .C2Started
    · cases stack_init_ok with
      | true =>
        exact ⟨some true, _, _, by simp only [LifecycleOp.run, ble_system_start, hg, hs]; rfl,
          rfl, fun _ => ⟨hs, rfl, rfl⟩⟩
      | false =>
        exact ⟨some false, _, _, by simp only [LifecycleOp.run, ble_system_start, hg, hs]; rfl,
          rfl, fun _ => ⟨hs, rfl, rfl⟩⟩
    · exact ⟨some false, w, g, by simp [LifecycleOp.run, ble_system_start, hg, hs], hg,
        fun hne => absurd rfl hne⟩

/-- C10, concrete run of the amended statement: a successful start from `C2Started`. -/
theorem lifecycle_status_changes_witness :
    (sample_world .C2Started .Stack 1 17).ble_glue = some (sample_glue .C2Started .Stack 1 17) ∧
      ∃ r w' g', (LifecycleOp.start true).run stm32wb (quiet_copro 0 0)
            (sample_world .C2Started .Stack 1 17) = .returned r w' ∧
        w'.ble_glue = some g' ∧
        (g'.status ≠ (sample_glue .C2Started .Stack 1 17).status →
          (sample_glue .C2Started .Stack 1 17).status = .C2Started ∧ r = some true ∧
            g'.status = .RadioStackRunning) :=
  ⟨rfl,
    lifecycle_status_changes stm32wb (quiet_copro 0 0) (.start true)
      (sample_world .C2Started .Stack 1 17) (sample_glue .C2Started .Stack 1 17) rfl⟩

/-- C10, counterexample to the claim as written.  After a readiness wait that timed
out (`Startup` to `Broken`), a late ready notification moves the status from `Broken`
to `C2Started`; and a readiness wait entered in `RadioStackRunning` moves the status
to `Broken`.  Neither change is one of the four listed transitions.  And a readiness
wait during whose last tick the ready notification is dispatched still ends in
`Broken`, so `Broken` is also entered with a ready notification within the timeout. -/
theorem lifecycle_transitions_outside_the_four :
    ble_system_wait_for_c2_start stm32wb (quiet_copro 0 0) 1 (sample_world .Startup .Unknown 0 0)
        = .returned false { sample_world .Broken .Unknown 0 0 with ticks := 1 } ∧
      ready_event ∈ (ready_at 0).events 0 ∧
      ble_system_wait_for_c2_start stm32wb (ready_at 0) 1 (sample_world .Startup .Unknown 0 0)
        = .returned false { sample_world .Broken .Stack 0 0 with ticks := 1 } ∧
      ble_system_sys_user_event_callback stm32wb ready_event
          { sample_world .Broken .Unknown 0 0 with ticks := 1 }
        = .returned () { sample_world .C2Started .Stack 0 0 with ticks := 1 } ∧
      ble_system_wait_for_c2_start stm32wb (quiet_copro 0 0) 1
          (sample_world .RadioStackRunning .Stack 1 17)
        = .returned false { sample_world .Broken .Stack 1 17 with ticks := 1 } ∧
      (BleGlueStatus.Broken, BleGlueStatus.C2Started) ∉
        [(BleGlueStatus.Startup, BleGlueStatus.Broken),
          (BleGlueStatus.Startup, BleGlueStatus.C2Started),
          (BleGlueStatus.C2Started, BleGlueStatus.RadioStackRunning),
          (BleGlueStatus.C2Started, BleGlueStatus.RadioStackMissing)] ∧
      (BleGlueStatus.RadioStackRunning, BleGlueStatus.Broken) ∉
        [(BleGlueStatus.Startup, BleGlueStatus.Broken),
          (BleGlueStatus.Startup, BleGlueStatus.C2Started),
          (BleGlueStatus.C2Started, BleGlueStatus.RadioStackRunning),
          (BleGlueStatus.C2Started, BleGlueStatus.RadioStackMissing)] := by
  refine ⟨?_, by simp [ready_at], ?_, ?_, ?_, by decide, by decide⟩
  · rw [ble_system_wait_for_c2_start, wait_for_c2_start_loop]
    simp [sample_world, sample_glue, sample_info, furi_delay_tick, quiet_copro,
      shci_user_evt_proc, int32_dec]
  · rw [ble_system_wait_for_c2_start, wait_for_c2_start_loop]
    simp [sample_world, sample_glue, sample_info, furi_delay_tick, ready_at, shci_user_evt_proc,
      ble_system_sys_user_event_callback, ready_event, stm32wb, int32_dec]
  · simp [ble_system_sys_user_event_callback, ready_event, stm32wb, sample_world, sample_glue,
      sample_info]
  · rw [ble_system_wait_for_c2_start, wait_for_c2_start_loop]
    simp [sample_world, sample_glue, sample_info, furi_delay_tick, quiet_copro,
      shci_user_evt_proc, int32_dec]

/-! ## Event worker -/

/-- Masking with the single-bit flag `1 << i` is non-zero exactly when bit `i` is set. -/
theorem and_shift_ne_zero (m i : Nat) : (m &&& 1 <<< i ≠ 0) ↔ m.testBit i = true := by
  rw [Nat.one_shiftLeft]
  constructor
  · intro h
    by_contra hb
    apply h
    apply Nat.eq_of_testBit_eq
    intro j
    simp only [Nat.testBit_and, Nat.testBit_two_pow, Nat.zero_testBit]
    by_cases hj : i = j
    · subst hj; simp [hb]
    · simp [hj]
  · intro hb h
    have := congrArg (fun x => Nat.testBit x i) h
    simp [Nat.testBit_two_pow, hb] at this

/-- C15: for every sequence of wake-up masks (and every log so far), the worker
takes the wake-ups up to and including the first mask with the kill bit, or all of
them when there is none; on each wake-up it takes it invokes the system-channel
processor iff bit 0 is set and then the link-layer processor iff bit 1 is set, also
on the wake-up that carries the kill bit; and it leaves its loop exactly when some
mask carries the kill bit, otherwise it ends up waiting again. -/
theorem ble_event_thread_services_flags (masks : List Nat) (log : List WorkerCall) :
    ble_event_thread (fun l => l ++ [WorkerCall.shci_user_evt_proc])
        (fun l => l ++ [WorkerCall.hci_user_evt_proc]) masks log
      = ⟨log ++ (wakes_until_kill masks).flatMap serviced,
          masks.any (fun mask => mask.testBit 2),
          (wakes_until_kill masks).length⟩ := by
  induction masks generalizing log with
  | nil => simp [ble_event_thread, wakes_until_kill]
  | cons mask later ih =>
    simp only [ble_event_thread, BLE_EVENT_THREAD_FLAG_SHCI_EVENT,
      BLE_EVENT_THREAD_FLAG_HCI_EVENT, BLE_EVENT_THREAD_FLAG_KILL_THREAD, and_shift_ne_zero,
      wakes_until_kill, ih]
    by_cases h0 : mask.testBit 0 = true <;> by_cases h1 : mask.testBit 1 = true <;>
      by_cases h2 : mask.testBit 2 = true <;>
      simp [h0, h1, h2, serviced, List.flatMap_cons]

/-- C16: while no worker exists, `shci_notify_asynch_evt` returns with the whole
state unchanged and `hci_notify_asynch_evt` ends in its failed check; while a running
worker exists, each returns having or-ed exactly its own flag into the worker's
pending flags: bit 0 for the system channel, bit 1 for the link-layer channel, every
other bit as it was. -/
theorem notify_asynch_evt_spec (s : System) :
    (s.event_thread = none →
        shci_notify_asynch_evt s = .returned () s ∧ hci_notify_asynch_evt s = .fatal) ∧
      (∀ th, s.event_thread = some th → th.thread_id ≠ 0 →
        shci_notify_asynch_evt s
            = .returned () { s with event_thread := some { th with flags := th.flags ||| 1 } } ∧
          hci_notify_asynch_evt s
            = .returned () { s with event_thread := some { th with flags := th.flags ||| 2 } } ∧
          (∀ i, (th.flags ||| 1).testBit i = (th.flags.testBit i || decide (i = 0))) ∧
          (∀ i, (th.flags ||| 2).testBit i = (th.flags.testBit i || decide (i = 1)))) := by
  constructor
  · intro h
    simp [shci_notify_asynch_evt, hci_notify_asynch_evt, h]
  · intro th h hid
    refine ⟨?_, ?_, ?_, ?_⟩
    · simp [shci_notify_asynch_evt, h, hid, BLE_EVENT_THREAD_FLAG_SHCI_EVENT]
    · simp [hci_notify_asynch_evt, h, hid, BLE_EVENT_THREAD_FLAG_HCI_EVENT]
    · intro i
      have h1 : (1 : Nat) = 2 ^ 0 := rfl
      rw [Nat.testBit_or, h1, Nat.testBit_two_pow]
      by_cases hi : i = 0 <;> simp [hi, eq_comm]
    · intro i
      have h2 : (2 : Nat) = 2 ^ 1 := rfl
      rw [Nat.testBit_or, h2, Nat.testBit_two_pow]
      by_cases hi : i = 1 <;> simp [hi, eq_comm]

/-- C16, concrete run: no worker, and a running worker with the kill flag pending. -/
theorem notify_asynch_evt_spec_witness :
    (shci_notify_asynch_evt (sample_system (sample_world .Startup .Unknown 0 0) none)
          = .returned () (sample_system (sample_world .Startup .Unknown 0 0) none) ∧
        hci_notify_asynch_evt (sample_system (sample_world .Startup .Unknown 0 0) none) = .fatal) ∧
      (shci_notify_asynch_evt (sample_system (sample_world .Startup .Unknown 0 0) (some ⟨5, 4⟩))
          = .returned () (sample_system (sample_world .Startup .Unknown 0 0) (some ⟨5, 5⟩)) ∧
        hci_notify_asynch_evt (sample_system (sample_world .Startup .Unknown 0 0) (some ⟨5, 4⟩))
          = .returned () (sample_system (sample_world .Startup .Unknown 0 0) (some ⟨5, 6⟩))) :=
  ⟨(notify_asynch_evt_spec (sample_system (sample_world .Startup .Unknown 0 0) none)).1 rfl,
    ((notify_asynch_evt_spec
        (sample_system (sample_world .Startup .Unknown 0 0) (some ⟨5, 4⟩))).2 ⟨5, 4⟩ rfl
      (by decide)).1,
    ((notify_asynch_evt_spec
        (sample_system (sample_world .Startup .Unknown 0 0) (some ⟨5, 4⟩))).2 ⟨5, 4⟩ rfl
      (by decide)).2.1⟩

/-! ## Shutdown: `ble_system_stop` -/

/-- C14: for every content of the four shared buffers, stopping an initialised
system (whose worker, if any, is running) returns with every byte of all four
buffers zero, their sizes unchanged, the state object released, so that
`ble_system_is_alive` then reports false, and the worker gone. -/
theorem ble_system_stop_clears (s : System) (g : BleGlue) (hg : s.world.ble_glue = some g)
    (hth : ∀ th, s.event_thread = some th → th.thread_id ≠ 0) :
    ∃ s', ble_system_stop s = .returned () s' ∧
      (∀ b ∈ s'.shm.ble_system_event_pool, b = 0) ∧
      (∀ b ∈ s'.shm.ble_system_system_cmd_buff, b = 0) ∧
      (∀ b ∈ s'.shm.ble_system_system_spare_event_buff, b = 0) ∧
      (∀ b ∈ s'.shm.ble_system_ble_spare_event_buff, b = 0) ∧
      s'.shm.ble_system_event_pool.length = s.shm.ble_system_event_pool.length ∧
      s'.shm.ble_system_system_cmd_buff.length = s.shm.ble_system_system_cmd_buff.length ∧
      s'.shm.ble_system_system_spare_event_buff.length
        = s.shm.ble_system_system_spare_event_buff.length ∧
      s'.shm.ble_system_ble_spare_event_buff.length
        = s.shm.ble_system_ble_spare_event_buff.length ∧
      s'.world.ble_glue = none ∧ ble_system_is_alive s'.world = false ∧
      s'.event_thread = none := by
  have hstop : ∃ s1, ble_event_thread_stop s = .returned () s1 ∧ s1.shm = s.shm ∧
      s1.event_thread = none := by
    cases het : s.event_thread with
    | none => exact ⟨s, by simp [ble_event_thread_stop, het], rfl, het⟩
    | some th =>
      unfold ble_event_thread_stop
      rw [het]
      simp only [hth th het, if_false]
      exact ⟨_, rfl, rfl, rfl⟩
  obtain ⟨s1, h1, hshm, het1⟩ := hstop
  refine ⟨{ s1 with shm := ble_system_clear_shared_memory s1.shm,
                    world := { s1.world with ble_glue := none } }, ?_, ?_, ?_, ?_, ?_, ?_, ?_, ?_,
    ?_, rfl, rfl, het1⟩
  · simp only [ble_system_stop, hg, h1]
  all_goals simp [ble_system_clear_shared_memory, hshm, List.mem_replicate]

/-- C14, concrete run: a system in `RadioStackRunning` with a running worker and
non-zero bytes in the buffers. -/
theorem ble_system_stop_clears_witness :
    ∃ s', ble_system_stop
          (sample_system (sample_world .RadioStackRunning .Stack 1 17) (some ⟨5, 0⟩))
          = .returned () s' ∧
      (∀ b ∈ s'.shm.ble_system_event_pool, b = 0) ∧
      (∀ b ∈ s'.shm.ble_system_system_cmd_buff, b = 0) ∧
      (∀ b ∈ s'.shm.ble_system_system_spare_event_buff, b = 0) ∧
      (∀ b ∈ s'.shm.ble_system_ble_spare_event_buff, b = 0) ∧
      s'.shm.ble_system_event_pool.length = 5 ∧
      s'.shm.ble_system_system_cmd_buff.length = 3 ∧
      s'.shm.ble_system_system_spare_event_buff.length = 2 ∧
      s'.shm.ble_system_ble_spare_event_buff.length = 1 ∧
      s'.world.ble_glue = none ∧ ble_system_is_alive s'.world = false ∧
      s'.event_thread = none :=
  ble_system_stop_clears
    (sample_system (sample_world .RadioStackRunning .Stack 1 17) (some ⟨5, 0⟩))
    (sample_glue .RadioStackRunning .Stack 1 17) rfl
    (fun th h => by
      have : th = ⟨5, 0⟩ := by simpa [sample_system] using h.symm
      subst this
      decide)

/-! ## Radio-stack start: `ble_system_start` -/

/-- C11: from status `C2Started` the start attempts the radio-stack bring-up once,
returns its result, and sets `RadioStackRunning` on success and `RadioStackMissing`
(after tearing the stack down) on failure; from every other status it returns false
and leaves the whole state untouched, so no bring-up is attempted.  Hence, whichever
status-writing operation runs, a change of the status to `RadioStackRunning` or
`RadioStackMissing` is made by the start and comes from `C2Started`. -/
theorem ble_system_start_spec (K : ShciConst) (c2 : Copro) (stack_init_ok : Bool) (w : World)
    (g : BleGlue) (hg : w.ble_glue = some g) :
    (g.status = .C2Started →
        ble_system_start stack_init_ok w
          = .returned stack_init_ok
              { w with
                ble_glue := some
                  { g with
                    status := if stack_init_ok then .RadioStackRunning else .RadioStackMissing }
                stack_init_calls := w.stack_init_calls + 1
                stack_deinit_calls :=
                  if stack_init_ok then w.stack_deinit_calls else w.stack_deinit_calls + 1 }) ∧
      (g.status ≠ .C2Started → ble_system_start stack_init_ok w = .returned false w) ∧
      (∀ (op : LifecycleOp) (r : Option Bool) (w' : World) (g' : BleGlue),
        op.run K c2 w = .returned r w' → w'.ble_glue = some g' → g'.status ≠ g.status →
        (g'.status = .RadioStackRunning ∨ g'.status = .RadioStackMissing) →
        g.status = .C2Started ∧ ∃ ok, op = .start ok) := by
  refine ⟨?_, ?_, ?_⟩
  · intro hs
    cases stack_init_ok <;> simp [ble_system_start, hg, hs]
  · intro hs
    simp [ble_system_start, hg, hs]
  · intro op r w' g' hrun hg' hne hradio
    cases op with
    | sys_user_event ev =>
      obtain ⟨w1, g1, h1, hg1, -, -, -, hn1, hr1⟩ := sys_user_event_callback_spec K ev w g hg
      simp only [LifecycleOp.run, h1, Outcome.returned.injEq] at hrun
      obtain ⟨-, rfl⟩ := hrun
      have hgg : g1 = g' := by rw [hg1] at hg'; exact Option.some.inj hg'
      subst hgg
      by_cases hr : ev.subevtcode = K.SHCI_SUB_EVT_CODE_READY
      · have := hr1 hr
        rcases hradio with h | h <;> rw [this] at h <;> exact absurd h (by decide)
      · exact absurd (by rw [hn1 hr]) hne
    | wait_for_c2_start timeout =>
      obtain ⟨b, w1, g1, h1, hg1, htrue, hfalse⟩ := wait_for_c2_start_spec K c2 timeout w g hg
      simp only [LifecycleOp.run, h1, Outcome.returned.injEq] at hrun
      obtain ⟨-, rfl⟩ := hrun
      have hgg : g1 = g' := by rw [hg1] at hg'; exact Option.some.inj hg'
      subst hgg
      cases b with
      | true =>
        have := (htrue rfl).1
        rcases hradio with h | h <;> rw [this] at h <;> exact absurd h (by decide)
      | false =>
        have := (hfalse rfl).1
        rcases hradio with h | h <;> rw [this] at h <;> exact absurd h (by decide)
    | start ok =>
      by_cases hs : g.status = .C2Started
      · exact ⟨hs, ok, rfl⟩
      · simp only [LifecycleOp.run, ble_system_start, hg, hs, ne_eq, not_false_eq_true, if_true,
          Outcome.returned.injEq] at hrun
        obtain ⟨-, rfl⟩ := hrun
        have hgg : g = g' := by rw [hg] at hg'; exact Option.some.inj hg'
        exact absurd (by rw [hgg]) hne

/-- C11, concrete runs: a failed bring-up from `C2Started`, and a start from `Broken`. -/
theorem ble_system_start_spec_witness :
    ble_system_start false (sample_world .C2Started .Stack 1 17)
        = .returned false
            { sample_world .RadioStackMissing .Stack 1 17 with
              stack_init_calls := 1, stack_deinit_calls := 1 } ∧
      ble_system_start true (sample_world .Broken .Unknown 0 0)
        = .returned false (sample_world .Broken .Unknown 0 0) :=
  ⟨(ble_system_start_spec stm32wb (quiet_copro 0 0) false (sample_world .C2Started .Stack 1 17)
      (sample_glue .C2Started .Stack 1 17) rfl).1 rfl,
    (ble_system_start_spec stm32wb (quiet_copro 0 0) true (sample_world .Broken .Unknown 0 0)
      (sample_glue .Broken .Unknown 0 0) rfl).2.1 (by decide)⟩

/-! ## Radio-stack compatibility: `furi_hal_ble_radio_stack_is_supported` -/

/-- The compatibility check is monotone when both version components grow: a
supported version stays supported if neither the major nor the minor number
decreases (and the stack type is kept). -/
theorem radio_stack_is_supported_mono_componentwise (K : ShciConst) (H : HalConst)
    (info info' : BleGlueC2Info) (stack stack' : FuriHalBtStack)
    (ht : info'.StackType = info.StackType) (hmaj : info.VersionMajor ≤ info'.VersionMajor)
    (hmin : info.VersionMinor ≤ info'.VersionMinor)
    (hsup : (furi_hal_ble_radio_stack_is_supported K H info stack).1 = true) :
    (furi_hal_ble_radio_stack_is_supported K H info' stack').1 = true := by
  unfold furi_hal_ble_radio_stack_is_supported at hsup ⊢
  rw [ht]
  by_cases hl : info.StackType = K.INFO_STACK_TYPE_BLE_LIGHT
  · simp only [hl, if_true] at hsup ⊢
    by_cases hv : info.VersionMajor ≥ H.FURI_HAL_BLE_STACK_VERSION_MAJOR ∧
        info.VersionMinor ≥ H.FURI_HAL_BLE_STACK_VERSION_MINOR
    · have hv' : info'.VersionMajor ≥ H.FURI_HAL_BLE_STACK_VERSION_MAJOR ∧
          info'.VersionMinor ≥ H.FURI_HAL_BLE_STACK_VERSION_MINOR := ⟨by omega, by omega⟩
      simp [hv']
    · simp [hv] at hsup
  · simp only [hl, if_false] at hsup ⊢
    by_cases hf : info.StackType = K.INFO_STACK_TYPE_BLE_FULL
    · simp only [hf, if_true] at hsup ⊢
      by_cases hv : info.VersionMajor ≥ H.FURI_HAL_BLE_STACK_VERSION_MAJOR ∧
          info.VersionMinor ≥ H.FURI_HAL_BLE_STACK_VERSION_MINOR
      · have hv' : info'.VersionMajor ≥ H.FURI_HAL_BLE_STACK_VERSION_MAJOR ∧
            info'.VersionMinor ≥ H.FURI_HAL_BLE_STACK_VERSION_MINOR := ⟨by omega, by omega⟩
        simp [hv']
      · simp [hv] at hsup
    · simp [hf] at hsup

/-- C18, the code at the failing input: with required minimum 1.12, stack type Light
(and likewise Full), version 1.12 is reported supported but the newer version 2.0 is
reported unsupported, because its minor number is below the required minor. -/
theorem radio_stack_is_supported_rejects_newer_major :
    (furi_hal_ble_radio_stack_is_supported stm32wb sample_hal_const
        { sample_info .Stack 1 12 with StackType := 0x03 } .Unknown).1 = true ∧
      (furi_hal_ble_radio_stack_is_supported stm32wb sample_hal_const
        { sample_info .Stack 2 0 with StackType := 0x03 } .Unknown).1 = false ∧
      (furi_hal_ble_radio_stack_is_supported stm32wb sample_hal_const
        { sample_info .Stack 1 12 with StackType := 0x01 } .Unknown).1 = true ∧
      (furi_hal_ble_radio_stack_is_supported stm32wb sample_hal_const
        { sample_info .Stack 2 0 with StackType := 0x01 } .Unknown).1 = false := by
  decide

/-! ## Radio-stack start: `furi_hal_ble_start_radio_stack` -/

/-- C12 (as amended): when the readiness wait succeeds with the co-processor in
`Stack` mode and the installed radio stack is unsupported (stack type neither Light
nor Full, or version older than the required minimum), the start of the radio stack
returns false with the lifecycle status still `C2Started`: the state of
`ble_system.c` is the one the wait left, so `ble_system_start` was not entered, no
bring-up was attempted and nothing was stopped; the mutex is free again. -/
theorem start_radio_stack_unsupported (K : ShciConst) (H : HalConst) (c2 : Copro) (hsem : Nat)
    (stack_init_ok : Bool) (s : System) (mtx : Nat) (w1 : World) (g1 : BleGlue)
    (hmtx : s.furi_hal_ble.core2_mtx = some mtx) (hfree : s.core2_locked = false)
    (hsem0 : hsem = 0)
    (hwait : ble_system_wait_for_c2_start K c2 H.FURI_HAL_BLE_C2_START_TIMEOUT s.world
      = .returned true w1)
    (hg1 : w1.ble_glue = some g1) (hmode : g1.c2_info.mode = .Stack)
    (hunsup : (g1.c2_info.StackType ≠ K.INFO_STACK_TYPE_BLE_LIGHT ∧
          g1.c2_info.StackType ≠ K.INFO_STACK_TYPE_BLE_FULL) ∨
        g1.c2_info.VersionMajor < H.FURI_HAL_BLE_STACK_VERSION_MAJOR ∨
        (g1.c2_info.VersionMajor = H.FURI_HAL_BLE_STACK_VERSION_MAJOR ∧
          g1.c2_info.VersionMinor < H.FURI_HAL_BLE_STACK_VERSION_MINOR)) :
    g1.status = .C2Started ∧
      ∃ stack', furi_hal_ble_start_radio_stack K H c2 hsem stack_init_ok s
        = .returned false
            { s with
              world := w1
              furi_hal_ble := { s.furi_hal_ble with stack := stack' }
              core2_locked := false } := by
  have hst : g1.status = .C2Started := by
    cases hw : s.world.ble_glue with
    | none =>
      have hloop : wait_for_c2_start_loop K c2 H.FURI_HAL_BLE_C2_START_TIMEOUT s.world
          = .undefined := by
        rw [wait_for_c2_start_loop]; simp [hw]
      simp [ble_system_wait_for_c2_start, hloop] at hwait
    | some g =>
      obtain ⟨b, w', g', h, hg', htrue, -⟩ :=
        wait_for_c2_start_spec K c2 H.FURI_HAL_BLE_C2_START_TIMEOUT s.world g hw
      rw [hwait] at h
      simp only [Outcome.returned.injEq] at h
      obtain ⟨rfl, rfl⟩ := h
      have hgg : g1 = g' := by rw [hg1] at hg'; exact Option.some.inj hg'
      rw [hgg]
      exact (htrue rfl).1
  have hforce : furi_hal_ble_ensure_c2_mode K c2 .Stack w1 = .returned true w1 := by
    simp [furi_hal_ble_ensure_c2_mode, ble_system_force_c2_mode, hg1, hmode,
      BleGlueC2Mode.toNat]
  have hsup : (furi_hal_ble_radio_stack_is_supported K H g1.c2_info s.furi_hal_ble.stack).1
      = false := by
    unfold furi_hal_ble_radio_stack_is_supported
    rcases hunsup with ⟨hl, hf⟩ | hmaj | ⟨-, hmin⟩
    · simp [hl, hf]
    · have hv : ¬ (g1.c2_info.VersionMajor ≥ H.FURI_HAL_BLE_STACK_VERSION_MAJOR ∧
          g1.c2_info.VersionMinor ≥ H.FURI_HAL_BLE_STACK_VERSION_MINOR) := by omega
      split_ifs <;> rfl
    · have hv : ¬ (g1.c2_info.VersionMajor ≥ H.FURI_HAL_BLE_STACK_VERSION_MAJOR ∧
          g1.c2_info.VersionMinor ≥ H.FURI_HAL_BLE_STACK_VERSION_MINOR) := by omega
      split_ifs <;> rfl
  refine ⟨hst, (furi_hal_ble_radio_stack_is_supported K H g1.c2_info s.furi_hal_ble.stack).2, ?_⟩
  simp only [furi_hal_ble_start_radio_stack, hmtx, hfree, hsem0, hwait, hforce, hg1, hsup]
  simp

/-- With `C2Started` on entry the readiness wait of the sample run returns at once,
having read the firmware information of the HCI-only co-processor. -/
theorem hci_only_wait :
    ble_system_wait_for_c2_start stm32wb hci_only_copro
        sample_hal_const.FURI_HAL_BLE_C2_START_TIMEOUT (sample_world .C2Started .Stack 0 0)
      = .returned true hci_only_world := by
  rw [ble_system_wait_for_c2_start,
    wait_loop_started stm32wb hci_only_copro sample_hal_const.FURI_HAL_BLE_C2_START_TIMEOUT
      (sample_world .C2Started .Stack 0 0) (sample_glue .C2Started .Stack 0 0) rfl rfl]
  decide

/-- C12, concrete run of the amended statement: status `C2Started`, mode `Stack`,
installed stack of the unsupported HCI-only type. -/
theorem start_radio_stack_unsupported_witness :
    hci_only_glue.status = .C2Started ∧
      ∃ stack', furi_hal_ble_start_radio_stack stm32wb sample_hal_const hci_only_copro 0 true
          (sample_system (sample_world .C2Started .Stack 0 0) (some ⟨5, 0⟩))
        = .returned false
            { sample_system (sample_world .C2Started .Stack 0 0) (some ⟨5, 0⟩) with
              world := hci_only_world
              furi_hal_ble :=
                { (sample_system (sample_world .C2Started .Stack 0 0) (some ⟨5, 0⟩)).furi_hal_ble
                  with stack := stack' }
              core2_locked := false } :=
  start_radio_stack_unsupported stm32wb sample_hal_const hci_only_copro 0 true
    (sample_system (sample_world .C2Started .Stack 0 0) (some ⟨5, 0⟩)) 7 hci_only_world
    hci_only_glue rfl rfl rfl hci_only_wait rfl rfl (Or.inl (by decide))

/-- C12, counterexample to the claim as written: with the co-processor started in
`Stack` mode and an installed stack of unsupported type, the start of the radio stack
returns false and the status on return is `C2Started`, not `RadioStackMissing`; no
bring-up was attempted. -/
theorem start_radio_stack_unsupported_keeps_started :
    furi_hal_ble_start_radio_stack stm32wb sample_hal_const hci_only_copro 0 true
        (sample_system (sample_world .C2Started .Stack 0 0) (some ⟨5, 0⟩))
      = .returned false (sample_system hci_only_world (some ⟨5, 0⟩)) ∧
      hci_only_world.ble_glue = some hci_only_glue ∧
      hci_only_glue.status = .C2Started ∧
      hci_only_glue.status ≠ .RadioStackMissing ∧
      hci_only_world.stack_init_calls = 0 := by
  refine ⟨?_, rfl, rfl, by decide, rfl⟩
  have hforce : furi_hal_ble_ensure_c2_mode stm32wb hci_only_copro .Stack hci_only_world
      = .returned true hci_only_world := by
    decide
  simp only [furi_hal_ble_start_radio_stack, sample_system, hci_only_wait, hforce]
  decide

/-! ## Command gate: `ble_system_sys_status_not_callback` -/

/-- Appending an acquisition keeps the record alternating exactly when the lock was
not held; afterwards it is held. -/
theorem alternates_append_acquired (log : List GateEvent) :
    ∀ held, alternates held (log ++ [.acquired]) = (alternates held log && !held_after held log) ∧
      held_after held (log ++ [.acquired]) = true := by
  induction log with
  | nil => intro held; cases held <;> simp [alternates, held_after]
  | cons e later ih =>
    intro held
    cases held <;> cases e <;> simp [alternates, held_after, ih]

/-- Appending a release keeps the record alternating exactly when the lock was
held; afterwards it is free. -/
theorem alternates_append_released (log : List GateEvent) :
    ∀ held, alternates held (log ++ [.released]) = (alternates held log && held_after held log) ∧
      held_after held (log ++ [.released]) = false := by
  induction log with
  | nil => intro held; cases held <;> simp [alternates, held_after]
  | cons e later ih =>
    intro held
    cases held <;> cases e <;> simp [alternates, held_after, ih]

/-- Every notification keeps the gate consistent with its record: the record
alternates, and the gate is busy exactly when the record ends in an acquisition. -/
theorem notify_stream_invariant (w : World) (stream : List SHCI_TL_CmdStatus_t) :
    ∀ st : GateState, alternates false st.log = true →
      (st.gate = .Busy ↔ held_after false st.log = true) →
      alternates false (notify_stream w stream st).1.log = true ∧
        ((notify_stream w stream st).1.gate = .Busy ↔
          held_after false (notify_stream w stream st).1.log = true) := by
  induction stream with
  | nil => intro st h1 h2; exact ⟨h1, h2⟩
  | cons status later ih =>
    intro st h1 h2
    obtain ⟨gate, log⟩ := st
    simp only at h1 h2
    cases hw : w.ble_glue with
    | none =>
      cases status <;>
        simp [notify_stream, ble_system_sys_status_not_callback, hw, h1, h2, ih]
    | some g =>
      cases status with
      | SHCI_TL_CmdBusy =>
        cases gate with
        | Idle =>
          have hfree : held_after false log = false := by
            cases hh : held_after false log
            · rfl
            · exact absurd (h2.mpr hh) (by decide)
          simp only [notify_stream, ble_system_sys_status_not_callback, hw, furi_mutex_acquire]
          apply ih
          · simp [(alternates_append_acquired log false).1, h1, hfree]
          · simp [(alternates_append_acquired log false).2]
        | Busy =>
          simp only [notify_stream, ble_system_sys_status_not_callback, hw, furi_mutex_acquire]
          exact ⟨h1, by simpa using h2⟩
      | SHCI_TL_CmdAvailable =>
        cases gate with
        | Idle =>
          simp only [notify_stream, ble_system_sys_status_not_callback, hw, furi_mutex_release]
          apply ih
          · exact h1
          · simpa using h2
        | Busy =>
          have hheld : held_after false log = true := h2.mp rfl
          simp only [notify_stream, ble_system_sys_status_not_callback, hw, furi_mutex_release]
          apply ih
          · simp [(alternates_append_released log false).1, h1, hheld]
          · simp [(alternates_append_released log false).2]
      | other value =>
        simp only [notify_stream, ble_system_sys_status_not_callback]
        exact ih _ h1 h2

/-- C17: on an initialised system the status callback drives the two-state gate as
a lock.  A `CmdBusy` notification acquires an idle gate (on a busy gate the caller
waits and nothing changes), a `CmdAvailable` notification releases a busy gate (on
an idle gate the release fails and nothing changes), any other status value leaves
gate and record unchanged.  Hence for every notification stream, starting from the
idle gate, the acquisitions and releases that take effect alternate, beginning with
an acquisition: the lock never has two holders and each release follows its
acquisition; and the gate is busy exactly when the last effective operation was an
acquisition. -/
theorem status_callback_gate (w : World) (g : BleGlue) (hg : w.ble_glue = some g) :
    (∀ log, ble_system_sys_status_not_callback .SHCI_TL_CmdBusy w ⟨.Idle, log⟩
        = .done ⟨.Busy, log ++ [.acquired]⟩) ∧
      (∀ log, ble_system_sys_status_not_callback .SHCI_TL_CmdBusy w ⟨.Busy, log⟩ = .waiting) ∧
      (∀ log, ble_system_sys_status_not_callback .SHCI_TL_CmdAvailable w ⟨.Busy, log⟩
        = .done ⟨.Idle, log ++ [.released]⟩) ∧
      (∀ log, ble_system_sys_status_not_callback .SHCI_TL_CmdAvailable w ⟨.Idle, log⟩
        = .done ⟨.Idle, log⟩) ∧
      (∀ value st, ble_system_sys_status_not_callback (.other value) w st = .done st) ∧
      (∀ stream,
        alternates false (notify_stream w stream ⟨.Idle, []⟩).1.log = true ∧
          ((notify_stream w stream ⟨.Idle, []⟩).1.gate = .Busy ↔
            held_after false (notify_stream w stream ⟨.Idle, []⟩).1.log = true)) := by
  refine ⟨?_, ?_, ?_, ?_, ?_, ?_⟩
  · intro log; simp [ble_system_sys_status_not_callback, hg, furi_mutex_acquire]
  · intro log; simp [ble_system_sys_status_not_callback, hg, furi_mutex_acquire]
  · intro log; simp [ble_system_sys_status_not_callback, hg, furi_mutex_release]
  · intro log; simp [ble_system_sys_status_not_callback, hg, furi_mutex_release]
  · intro value st; simp [ble_system_sys_status_not_callback]
  · intro stream
    exact notify_stream_invariant w stream ⟨.Idle, []⟩ rfl (by simp [held_after])

/-- C17, concrete run: the stream available, busy, other, available, busy leaves
the gate busy with the record acquired, released, acquired. -/
theorem status_callback_gate_witness :
    (sample_world .C2Started .Stack 1 17).ble_glue = some (sample_glue .C2Started .Stack 1 17) ∧
      notify_stream (sample_world .C2Started .Stack 1 17)
          [.SHCI_TL_CmdAvailable, .SHCI_TL_CmdBusy, .other 7, .SHCI_TL_CmdAvailable,
            .SHCI_TL_CmdBusy] ⟨.Idle, []⟩
        = (⟨.Busy, [.acquired, .released, .acquired]⟩, []) ∧
      alternates false
          (notify_stream (sample_world .C2Started .Stack 1 17)
            [.SHCI_TL_CmdAvailable, .SHCI_TL_CmdBusy, .other 7, .SHCI_TL_CmdAvailable,
              .SHCI_TL_CmdBusy] ⟨.Idle, []⟩).1.log = true :=
  ⟨rfl, by decide,
    ((status_callback_gate (sample_world .C2Started .Stack 1 17)
        (sample_glue .C2Started .Stack 1 17) rfl).2.2.2.2.2
      [.SHCI_TL_CmdAvailable, .SHCI_TL_CmdBusy, .other 7, .SHCI_TL_CmdAvailable,
        .SHCI_TL_CmdBusy]).1⟩

/-! ## Mode recorded by the ready notification -/

/-- The handler keeps "mode known whenever `C2Started`" when a ready notification
reports one of the two defined values. -/
theorem sys_user_event_callback_keeps_mode_known (K : ShciConst) (ev : TL_AsynchEvt_t)
    (w : World) (g : BleGlue) (hg : w.ble_glue = some g) (hinv : mode_known_when_started g)
    (hev : ready_rsp_known K ev) :
    ∃ w' g', ble_system_sys_user_event_callback K ev w = .returned () w' ∧
      w'.ble_glue = some g' ∧ w'.ticks = w.ticks ∧ mode_known_when_started g' := by
  by_cases hr : ev.subevtcode = K.SHCI_SUB_EVT_CODE_READY
  · unfold ble_system_sys_user_event_callback
    rw [if_pos hr, hg]
    refine ⟨_, _, rfl, rfl, rfl, ?_⟩
    intro _
    show (if ev.sysevt_ready_rsp = K.WIRELESS_FW_RUNNING then BleGlueC2Mode.Stack
      else if ev.sysevt_ready_rsp = K.FUS_FW_RUNNING then .FUS else g.c2_info.mode) ≠ .Unknown
    split_ifs with h1 h2
    · decide
    · decide
    · rcases hev hr with h | h <;> contradiction
  · obtain ⟨w1, g1, h1, hg1, ht1, -, -, hn1, -⟩ := sys_user_event_callback_spec K ev w g hg
    exact ⟨w1, g1, h1, hg1, ht1, by rw [hn1 hr]; exact hinv⟩

/-- Dispatching well-formed events keeps "mode known whenever `C2Started`". -/
theorem shci_user_evt_proc_keeps_mode_known (K : ShciConst) (evs : List TL_AsynchEvt_t) :
    ∀ (w : World) (g : BleGlue), w.ble_glue = some g → mode_known_when_started g →
      (∀ ev ∈ evs, ready_rsp_known K ev) →
      ∃ w' g', shci_user_evt_proc K evs w = .returned () w' ∧
        w'.ble_glue = some g' ∧ w'.ticks = w.ticks ∧ mode_known_when_started g' := by
  induction evs with
  | nil => intro w g hg hinv _; exact ⟨w, g, rfl, hg, rfl, hinv⟩
  | cons ev rest ih =>
    intro w g hg hinv hall
    obtain ⟨w1, g1, h1, hg1, ht1, hinv1⟩ :=
      sys_user_event_callback_keeps_mode_known K ev w g hg hinv (hall ev (List.mem_cons_self _ _))
    obtain ⟨w2, g2, h2, hg2, ht2, hinv2⟩ :=
      ih w1 g1 hg1 hinv1 (fun e he => hall e (List.mem_cons_of_mem _ he))
    refine ⟨w2, g2, ?_, hg2, by rw [ht2, ht1], hinv2⟩
    simp only [shci_user_evt_proc, h1]
    exact h2

/-- The loop of the readiness wait keeps "mode known whenever `C2Started`" when the
events of every tick are well-formed. -/
theorem wait_loop_keeps_mode_known (K : ShciConst) (c2 : Copro)
    (hc2 : ∀ k, ∀ ev ∈ c2.events k, ready_rsp_known K ev) (n : Nat) :
    ∀ (t : Int) (w : World) (g : BleGlue), (int32_dec t).toNat ≤ n → w.ble_glue = some g →
      mode_known_when_started g →
      ∃ b w' g', wait_for_c2_start_loop K c2 t w = .returned b w' ∧
        w'.ble_glue = some g' ∧ mode_known_when_started g' := by
  have hdelay : ∀ (w : World) (g : BleGlue), w.ble_glue = some g → mode_known_when_started g →
      ∃ w' g', furi_delay_tick K c2 w = .returned () w' ∧ w'.ble_glue = some g' ∧
        mode_known_when_started g' := by
    intro w g hg hinv
    obtain ⟨w1, g1, h1, hg1, -, hinv1⟩ :=
      shci_user_evt_proc_keeps_mode_known K (c2.events w.ticks) w g hg hinv (hc2 w.ticks)
    exact ⟨{ w1 with ticks := w1.ticks + 1 }, g1, by simp only [furi_delay_tick, h1], hg1, hinv1⟩
  induction n with
  | zero =>
    intro t w g ht hg hinv
    by_cases hs : g.status = .C2Started
    · exact ⟨true, w, g, wait_loop_started K c2 t w g hg hs, hg, hinv⟩
    · obtain ⟨w1, g1, h1, hg1, hinv1⟩ := hdelay w g hg hinv
      have hnp : ¬ (0 < int32_dec t) := by omega
      refine ⟨false, w1, g1, ?_, hg1, hinv1⟩
      rw [wait_loop_step K c2 t w g hg hs, h1]
      simp only [hnp, if_false]
  | succ n ih =>
    intro t w g ht hg hinv
    by_cases hs : g.status = .C2Started
    · exact ⟨true, w, g, wait_loop_started K c2 t w g hg hs, hg, hinv⟩
    · obtain ⟨w1, g1, h1, hg1, hinv1⟩ := hdelay w g hg hinv
      by_cases hp : 0 < int32_dec t
      · have hdec : int32_dec (int32_dec t) = int32_dec t - 1 := int32_dec_of_pos _ hp
        obtain ⟨b, w2, g2, h2, hg2, hinv2⟩ := ih (int32_dec t) w1 g1 (by omega) hg1 hinv1
        refine ⟨b, w2, g2, ?_, hg2, hinv2⟩
        rw [wait_loop_step K c2 t w g hg hs, h1]
        simp only [hp, if_true]
        exact h2
      · refine ⟨false, w1, g1, ?_, hg1, hinv1⟩
        rw [wait_loop_step K c2 t w g hg hs, h1]
        simp only [hp, if_false]

/-- Each status-writing operation keeps "mode known whenever `C2Started`" when all
ready notifications involved are well-formed. -/
theorem lifecycle_op_keeps_mode_known (K : ShciConst) (c2 : Copro)
    (hc2 : ∀ k, ∀ ev ∈ c2.events k, ready_rsp_known K ev) (op : LifecycleOp)
    (hop : op_events_known K op) (w : World) (g : BleGlue) (hg : w.ble_glue = some g)
    (hinv : mode_known_when_started g) :
    ∃ r w' g', op.run K c2 w = .returned r w' ∧ w'.ble_glue = some g' ∧
      mode_known_when_started g' := by
  cases op with
  | sys_user_event ev =>
    obtain ⟨w1, g1, h1, hg1, -, hinv1⟩ :=
      sys_user_event_callback_keeps_mode_known K ev w g hg hinv hop
    exact ⟨none, w1, g1, by simp only [LifecycleOp.run, h1], hg1, hinv1⟩
  | wait_for_c2_start timeout =>
    obtain ⟨b, w1, g1, h1, hg1, hinv1⟩ :=
      wait_loop_keeps_mode_known K c2 hc2 (int32_dec timeout).toNat timeout w g (le_refl _) hg
        hinv
    cases b with
    | true =>
      obtain ⟨w3, g3, h3, hg3, hs3, hm3, -, -, -⟩ := update_c2_fw_info_spec K c2 w1 g1 hg1
      refine ⟨some true, w3, g3, ?_, hg3, ?_⟩
      · simp only [LifecycleOp.run, ble_system_wait_for_c2_start, h1, h3]
      · intro hst
        rw [hm3]
        exact hinv1 (by rw [← hs3]; exact hst)
    | false =>
      refine ⟨some false, { w1 with ble_glue := some { g1 with status := .Broken } }, _, ?_, rfl,
        ?_⟩
      · simp only [LifecycleOp.run, ble_system_wait_for_c2_start, h1, hg1]
      · intro hst
        simp at hst
  | start ok =>
    by_cases hs : g.status = .C2Started
    · cases ok with
      | true =>
        exact ⟨some true, _, _, by simp only [LifecycleOp.run, ble_system_start, hg, hs]; rfl,
          rfl, fun hst => by simp at hst⟩
      | false =>
        exact ⟨some false, _, _, by simp only [LifecycleOp.run, ble_system_start, hg, hs]; rfl,
          rfl, fun hst => by simp at hst⟩
    · exact ⟨some false, w, g, by simp [LifecycleOp.run, ble_system_start, hg, hs], hg, hinv⟩

/-- Every run of status-writing operations keeps "mode known whenever `C2Started`"
when all ready notifications involved are well-formed. -/
theorem run_lifecycle_keeps_mode_known (K : ShciConst) (c2 : Copro)
    (hc2 : ∀ k, ∀ ev ∈ c2.events k, ready_rsp_known K ev) (ops : List LifecycleOp) :
    ∀ (w : World) (g : BleGlue), w.ble_glue = some g → mode_known_when_started g →
      (∀ op ∈ ops, op_events_known K op) →
      ∃ w' g', run_lifecycle K c2 ops w = .returned () w' ∧ w'.ble_glue = some g' ∧
        mode_known_when_started g' := by
  induction ops with
  | nil => intro w g hg hinv _; exact ⟨w, g, rfl, hg, hinv⟩
  | cons op rest ih =>
    intro w g hg hinv hall
    obtain ⟨r, w1, g1, h1, hg1, hinv1⟩ :=
      lifecycle_op_keeps_mode_known K c2 hc2 op (hall op (List.mem_cons_self _ _)) w g hg hinv
    obtain ⟨w2, g2, h2, hg2, hinv2⟩ :=
      ih w1 g1 hg1 hinv1 (fun o ho => hall o (List.mem_cons_of_mem _ ho))
    refine ⟨w2, g2, ?_, hg2, hinv2⟩
    simp only [run_lifecycle, h1]
    exact h2

/-- C13: for every ready notification whose response field holds a value of the
vendor's two-valued `SHCI_SysEvt_Ready_Rsp_t`, after the handler the status is
`C2Started` and the recorded mode is known: `FUS` when the payload reports the FUS
running and `Stack` when it reports the wireless firmware running.  Consequently, in
every state reached from a freshly initialised one (status `Startup`) by the
status-writing operations, with the ready notifications so typed, status `C2Started`
implies that the mode is not `Unknown`. -/
theorem ready_notification_records_mode (K : ShciConst) (c2 : Copro)
    (hK : K.WIRELESS_FW_RUNNING ≠ K.FUS_FW_RUNNING) :
    (∀ (ev : TL_AsynchEvt_t) (w : World) (g : BleGlue), w.ble_glue = some g →
        ev.subevtcode = K.SHCI_SUB_EVT_CODE_READY → ready_rsp_known K ev →
        ∃ g', ble_system_sys_user_event_callback K ev w
              = .returned () { w with ble_glue := some g' } ∧
          g'.status = .C2Started ∧ g'.c2_info.mode ≠ .Unknown ∧
          (ev.sysevt_ready_rsp = K.FUS_FW_RUNNING → g'.c2_info.mode = .FUS) ∧
          (ev.sysevt_ready_rsp = K.WIRELESS_FW_RUNNING → g'.c2_info.mode = .Stack)) ∧
      ((∀ k, ∀ ev ∈ c2.events k, ready_rsp_known K ev) →
        ∀ (ops : List LifecycleOp) (w : World) (g : BleGlue), w.ble_glue = some g →
          g.status = .Startup → (∀ op ∈ ops, op_events_known K op) →
          ∃ w' g', run_lifecycle K c2 ops w = .returned () w' ∧ w'.ble_glue = some g' ∧
            (g'.status = .C2Started → g'.c2_info.mode ≠ .Unknown)) := by
  constructor
  · intro ev w g hg hr hknown
    unfold ble_system_sys_user_event_callback
    rw [if_pos hr, hg]
    refine ⟨_, rfl, rfl, ?_, ?_, ?_⟩
    · show (if ev.sysevt_ready_rsp = K.WIRELESS_FW_RUNNING then BleGlueC2Mode.Stack
        else if ev.sysevt_ready_rsp = K.FUS_FW_RUNNING then .FUS else g.c2_info.mode) ≠ .Unknown
      split_ifs with h1 h2
      · decide
      · decide
      · rcases hknown hr with h | h <;> contradiction
    · intro h
      have h' : ¬ ev.sysevt_ready_rsp = K.WIRELESS_FW_RUNNING := fun hw => hK (hw.symm.trans h)
      show (if ev.sysevt_ready_rsp = K.WIRELESS_FW_RUNNING then BleGlueC2Mode.Stack
        else if ev.sysevt_ready_rsp = K.FUS_FW_RUNNING then .FUS else g.c2_info.mode) = .FUS
      rw [if_neg h', if_pos h]
    · intro h
      show (if ev.sysevt_ready_rsp = K.WIRELESS_FW_RUNNING then BleGlueC2Mode.Stack
        else if ev.sysevt_ready_rsp = K.FUS_FW_RUNNING then .FUS else g.c2_info.mode) = .Stack
      rw [if_pos h]
  · intro hc2 ops w g hg hs hops
    exact run_lifecycle_keeps_mode_known K c2 hc2 ops w g hg
      (fun hst => absurd hst (by rw [hs]; decide)) hops

/-- C13, concrete runs: the ready notification reporting the wireless firmware,
handled in the fresh state; and a run of a readiness wait during which that
notification is dispatched, followed by a start. -/
theorem ready_notification_records_mode_witness :
    stm32wb.WIRELESS_FW_RUNNING ≠ stm32wb.FUS_FW_RUNNING ∧
      (∃ g', ble_system_sys_user_event_callback stm32wb ready_event
            (sample_world .Startup .Unknown 0 0)
            = .returned () { sample_world .Startup .Unknown 0 0 with ble_glue := some g' } ∧
        g'.status = .C2Started ∧ g'.c2_info.mode ≠ .Unknown ∧
        (ready_event.sysevt_ready_rsp = stm32wb.FUS_FW_RUNNING → g'.c2_info.mode = .FUS) ∧
        (ready_event.sysevt_ready_rsp = stm32wb.WIRELESS_FW_RUNNING →
          g'.c2_info.mode = .Stack)) ∧
      ∃ w' g', run_lifecycle stm32wb (ready_at 0) [.wait_for_c2_start 5, .start true]
            (sample_world .Startup .Unknown 0 0) = .returned () w' ∧
        w'.ble_glue = some g' ∧ (g'.status = .C2Started → g'.c2_info.mode ≠ .Unknown) :=
  ⟨by decide,
    (ready_notification_records_mode stm32wb (ready_at 0) (by decide)).1 ready_event
      (sample_world .Startup .Unknown 0 0) (sample_glue .Startup .Unknown 0 0) rfl rfl
      (fun _ => Or.inl rfl),
    (ready_notification_records_mode stm32wb (ready_at 0) (by decide)).2
      (fun k ev hev _ => by
        have hmem : ev ∈ (if k = 0 then [ready_event] else []) := hev
        split_ifs at hmem
        · rw [List.mem_singleton.mp hmem]; exact Or.inl rfl
        · exact absurd hmem (List.not_mem_nil ev))
      [.wait_for_c2_start 5, .start true] (sample_world .Startup .Unknown 0 0)
      (sample_glue .Startup .Unknown 0 0) rfl rfl
      (fun op hop => by
        rcases List.mem_cons.mp hop with rfl | hop
        · trivial
        · rcases List.mem_cons.mp hop with rfl | hop
          · trivial
          · exact absurd hop (List.not_mem_nil op))⟩

end BleSystem
